import Mathlib

/-!
# The vertical-pod-autoscaler operator's reconciler

A shallow embedding of `pkg/controller/verticalpodautoscaler/verticalpodautoscaler_controller.go`.

* Kubernetes objects are records with the fields the controller reads or writes, together with a
  few it never touches (labels, replica count, status, restart policy), so that "left unchanged"
  has content.
* A Go `map[string]string` is an `Option` of a finite map: `none` is the nil map.
* A Go `error` is an `Option Error`: `none` is nil.
* The client and the event recorder are explicit state (`Cluster`): an object store, the list of
  client calls issued so far, the list of recorded events, and a script of injected failures.
* Logging through `klog` has no effect on any of this and is left out.
-/

set_option autoImplicit false

namespace VPAOperator

/-! ## Kubernetes data model -/

/-- A Go `map[string]string` that is not nil. -/
abbrev StringMap := Finmap (fun _ : String => String)

/-- A Go `float64`, kept as its IEEE-754 bit pattern: the controller only hands these values on
to `RecommenderArgs`. -/
structure Float64 where
  bits : Nat
  deriving DecidableEq

/-- The type `metav1.TypeMeta`. -/
structure TypeMeta where
  Kind : String
  APIVersion : String
  deriving DecidableEq

/-- The type `metav1.OwnerReference`; the two `*bool` fields are options. -/
structure OwnerReference where
  APIVersion : String
  Kind : String
  Name : String
  UID : String
  Controller : Option Bool
  BlockOwnerDeletion : Option Bool
  deriving DecidableEq

/-- The type `metav1.ObjectMeta`, with the fields used here and some server-managed ones. -/
structure ObjectMeta where
  Name : String
  Namespace : String
  UID : String
  ResourceVersion : String
  SelfLink : String
  Generation : Int
  Labels : Option StringMap
  Annotations : Option StringMap
  OwnerReferences : List OwnerReference
  deriving DecidableEq

/-- The type `types.NamespacedName`. -/
structure NamespacedName where
  Namespace : String
  Name : String
  deriving DecidableEq

/-- The type `corev1.ObjectReference`. -/
structure ObjectReference where
  Kind : String
  Namespace : String
  Name : String
  UID : String
  APIVersion : String
  ResourceVersion : String
  deriving DecidableEq

/-- The type `schema.GroupVersionKind`. -/
structure GroupVersionKind where
  Group : String
  Version : String
  Kind : String
  deriving DecidableEq

/-- The type `corev1.Container`, with the fields the controller sets. -/
structure Container where
  Name : String
  Image : String
  Command : List String
  Args : List String
  deriving DecidableEq

/-- The type `corev1.Toleration`. -/
structure Toleration where
  Key : String
  Operator : String
  Value : String
  Effect : String
  deriving DecidableEq

/-- The type `corev1.PodSpec`: the fields `RecommenderPodSpec` sets, and two of the many it leaves
at their zero value (`RestartPolicy`, `SchedulerName`). -/
structure PodSpec where
  ServiceAccountName : String
  PriorityClassName : String
  NodeSelector : Option StringMap
  Containers : List Container
  Tolerations : List Toleration
  RestartPolicy : String
  SchedulerName : String
  deriving DecidableEq

/-- The type `corev1.PodTemplateSpec`. -/
structure PodTemplateSpec where
  ObjectMeta : ObjectMeta
  Spec : PodSpec
  deriving DecidableEq

/-- The type `metav1.LabelSelector` (match-labels only). -/
structure LabelSelector where
  MatchLabels : Option StringMap
  deriving DecidableEq

/-- The type `appsv1.DeploymentSpec`; `Replicas` and `Selector` are pointers. -/
structure DeploymentSpec where
  Replicas : Option Int
  Selector : Option LabelSelector
  Template : PodTemplateSpec
  deriving DecidableEq

/-- The type `appsv1.DeploymentStatus`. -/
structure DeploymentStatus where
  ObservedGeneration : Int
  Replicas : Int
  UpdatedReplicas : Int
  AvailableReplicas : Int
  deriving DecidableEq

/-- The type `appsv1.Deployment`. -/
structure Deployment where
  TypeMeta : TypeMeta
  ObjectMeta : ObjectMeta
  Spec : DeploymentSpec
  Status : DeploymentStatus
  deriving DecidableEq

/-- The type `autoscalingv1.VerticalPodAutoscalerSpec`: three optional floats. -/
structure VerticalPodAutoscalerSpec where
  SafetyMarginFraction : Option Float64
  PodMinCPUMillicores : Option Float64
  PodMinMemoryMb : Option Float64
  deriving DecidableEq

/-- The type `autoscalingv1.VerticalPodAutoscalerController`, the Controller Resource. -/
structure VerticalPodAutoscalerController where
  TypeMeta : TypeMeta
  ObjectMeta : ObjectMeta
  Spec : VerticalPodAutoscalerSpec
  deriving DecidableEq

/-- A `runtime.Object`: one of the two kinds of object this controller handles. -/
inductive RuntimeObject where
  | vpa (o : VerticalPodAutoscalerController)
  | deployment (o : Deployment)
  deriving DecidableEq

/-- The status reason carried by an API error. -/
inductive StatusReason where
  | NotFound
  | AlreadyExists
  | Conflict
  | Unknown
  deriving DecidableEq

/-- A non-nil Go `error`: its status reason and its text. -/
structure Error where
  Reason : StatusReason
  Message : String
  deriving DecidableEq

deriving instance DecidableEq for Except

/-- The function `errors.IsNotFound`; it is false on the nil error. -/
def IsNotFound : Option Error → Bool
  | some e => decide (e.Reason = StatusReason.NotFound)
  | none => false

/-- The type `reconcile.Result`. -/
structure Result where
  Requeue : Bool
  RequeueAfter : Nat
  deriving DecidableEq

/-- The empty result `reconcile.Result{}`. -/
def Result.empty : Result := ⟨false, 0⟩

/-- The type `reconcile.Request`. -/
structure Request where
  NamespacedName : NamespacedName
  deriving DecidableEq

/-! ## Configuration and collaborators -/

/-- Config represents the configuration for a reconciler instance. -/
structure Config where
  ReleaseVersion : String
  Name : String
  Namespace : String
  Image : String
  Verbosity : Int
  ExtraArgs : String
  deriving DecidableEq

/-- The parts of this repository that the controller file uses and that live in other files:
the two annotation keys and `ReleaseVersionMatches` of package `util`, and `RecommenderArgs`.
They are parameters of the development. -/
structure Deps where
  CriticalPodAnnotation : String
  ReleaseVersionAnnotation : String
  ReleaseVersionMatches : ObjectMeta → String → Bool
  RecommenderArgs : VerticalPodAutoscalerController → Config → List String

/-- The `runtime.Scheme` as the controller uses it: the kind registered for an object's type,
which `reference.GetReference` falls back on for an object that carries no kind
(`scheme.ObjectKinds`, first entry), and the kind lookup `apiutil.GVKForObject` made by
`controllerutil.SetControllerReference`. Both fail for a type that is not registered. -/
structure Scheme where
  ObjectKinds : RuntimeObject → Except Error GroupVersionKind
  GVKForObject : VerticalPodAutoscalerController → Except Error GroupVersionKind

/-- Reconciler reconciles a VerticalPodAutoscalerController object. The client and the recorder
are the `Cluster` state threaded through the operations below. -/
structure Reconciler where
  deps : Deps
  scheme : Scheme
  config : Config

/-! ## Pure parts of the controller -/

def vpaRecommenderServiceAccount : String := "vpa-recommender"

def vpaRecommenderPriorityClassName : String := "system-cluster-critical"

/-- NamePredicate is used in predicate functions. It returns true if the object's name matches
the configured name of the singleton VerticalPodAutoscalerController resource. -/
def Reconciler.NamePredicate (r : Reconciler) (m : ObjectMeta) : Bool :=
  if m.Name ≠ r.config.Name then false else true

/-- RecommenderName returns the expected NamespacedName for the deployment belonging to the
given VerticalPodAutoscalerController. -/
def Reconciler.RecommenderName (r : Reconciler) (vpa : VerticalPodAutoscalerController) :
    NamespacedName :=
  { Name := "vpa-recommender-" ++ vpa.ObjectMeta.Name
    Namespace := r.config.Namespace }

/-- UpdateAnnotations updates the annotations on the given object to the values currently
expected by the controller. The object is reached through its `ObjectMeta`. -/
def Reconciler.UpdateAnnotations (r : Reconciler) (obj : ObjectMeta) : ObjectMeta :=
  let annotations : StringMap :=
    match obj.Annotations with
    | none => ∅
    | some m => m
  let annotations := annotations.insert r.deps.CriticalPodAnnotation ""
  let annotations := annotations.insert r.deps.ReleaseVersionAnnotation r.config.ReleaseVersion
  { obj with Annotations := some annotations }

/-- RecommenderPodSpec returns the expected podSpec for the deployment belonging to the given
VerticalPodAutoscalerController. -/
def Reconciler.RecommenderPodSpec (r : Reconciler) (vpa : VerticalPodAutoscalerController) :
    PodSpec :=
  let args := r.deps.RecommenderArgs vpa r.config
  let args := if r.config.ExtraArgs ≠ "" then args ++ [r.config.ExtraArgs] else args
  { ServiceAccountName := vpaRecommenderServiceAccount
    PriorityClassName := vpaRecommenderPriorityClassName
    NodeSelector := some
      ((∅ : StringMap).insert "node-role.kubernetes.io/master" "" |>.insert
        "beta.kubernetes.io/os" "linux")
    Containers := [
      { Name := "vertical-pod-autoscaler"
        Image := r.config.Image
        Command := ["recommender"]
        Args := args }]
    Tolerations := [
      { Key := "CriticalAddonsOnly", Operator := "Exists", Value := "", Effect := "" },
      { Key := "node-role.kubernetes.io/master", Operator := "Exists", Value := "",
        Effect := "NoSchedule" }]
    RestartPolicy := ""
    SchedulerName := "" }

/-- AutoscalerDeployment returns the expected deployment belonging to the given
VerticalPodAutoscalerController. -/
def Reconciler.AutoscalerDeployment (r : Reconciler) (vpa : VerticalPodAutoscalerController) :
    Deployment :=
  let namespacedName := r.RecommenderName vpa
  let labels : StringMap :=
    (∅ : StringMap).insert "vertical-pod-autoscaler" vpa.ObjectMeta.Name |>.insert
      "app" "vertical-pod-autoscaler"
  let annotations : StringMap :=
    (∅ : StringMap).insert r.deps.CriticalPodAnnotation "" |>.insert
      r.deps.ReleaseVersionAnnotation r.config.ReleaseVersion
  let podSpec := r.RecommenderPodSpec vpa
  let replicas : Int := 1
  { TypeMeta := { APIVersion := "apps/v1", Kind := "Deployment" }
    ObjectMeta :=
      { Name := namespacedName.Name
        Namespace := namespacedName.Namespace
        UID := ""
        ResourceVersion := ""
        SelfLink := ""
        Generation := 0
        Labels := none
        Annotations := some annotations
        OwnerReferences := [] }
    Spec :=
      { Replicas := some replicas
        Selector := some { MatchLabels := some labels }
        Template :=
          { ObjectMeta :=
              { Name := ""
                Namespace := ""
                UID := ""
                ResourceVersion := ""
                SelfLink := ""
                Generation := 0
                Labels := some labels
                Annotations := some annotations
                OwnerReferences := [] }
            Spec := podSpec } }
    Status := ⟨0, 0, 0, 0⟩ }

/-- The method `GroupVersion.String`. -/
def GroupVersionString (group version : String) : String :=
  if group ≠ "" then group ++ "/" ++ version else version

/-- The function `schema.ParseGroupVersion`: the empty group and version for the empty string
and for "/"; with no slash (`strings.Count`) the string is the version; with one slash the
group is what stands before it (`strings.Index`) and the version what stands after it; with
more than one slash there is no result. -/
def ParseGroupVersion (gv : String) : Option (String × String) :=
  if gv = "" ∨ gv = "/" then some ("", "")
  else if gv.toList.count '/' = 0 then some ("", gv)
  else if gv.toList.count '/' = 1 then
    some (String.mk (gv.toList.takeWhile (fun c => c ≠ '/')),
      String.mk (gv.toList.dropWhile (fun c => c ≠ '/')).tail)
  else none

/-- The API version as `reference.GetReference` reads it from an object's type metadata:
`schema.FromAPIVersionAndKind` (which drops an API version that does not parse) followed by
`GroupVersion().String()`. -/
def groupVersionOf (apiVersion : String) : String :=
  match ParseGroupVersion apiVersion with
  | some gv => GroupVersionString gv.1 gv.2
  | none => ""

/-- Whether a string has the form `version` or `group/version`: it is not empty, has at most
one slash and does not start with it. -/
def isGroupVersion (s : String) : Bool :=
  decide (s ≠ "") && decide (s.toList.count '/' ≤ 1) && decide (s.toList.head? ≠ some '/')

/-- The function `strings.Split(s, "/")`, on the characters of `s`. -/
def splitOnSlash : List Char → List (List Char)
  | [] => [[]]
  | c :: cs =>
    if c = '/' then [] :: splitOnSlash cs
    else
      match splitOnSlash cs with
      | [] => [[c]]
      | piece :: pieces => (c :: piece) :: pieces

/-- The loop of `reference.GetReference` over the pieces of a self link: the piece that follows
the first piece "api" or "apis", the empty string when there is none. -/
def versionAfterAPI : List String → String
  | [] => ""
  | part :: rest =>
    if part = "api" ∨ part = "apis" then
      match rest with
      | next :: _ => next
      | [] => ""
    else versionAfterAPI rest

/-- The type metadata of an object. -/
def typeMetaOf : RuntimeObject → TypeMeta
  | .vpa o => o.TypeMeta
  | .deployment o => o.TypeMeta

/-- The object metadata of an object. -/
def objectMetaOf : RuntimeObject → ObjectMeta
  | .vpa o => o.ObjectMeta
  | .deployment o => o.ObjectMeta

/-- The error `reference.ErrNoSelfLink`. -/
def ErrNoSelfLink : Error := ⟨StatusReason.Unknown, "selfLink was empty, can't make reference"⟩

/-- The function `reference.GetReference` of client-go: the kind is the one in the object's
type metadata or, when that is empty, the one the scheme has registered for the object's type;
the API version is the one in the type metadata or, when that is empty, what the object's self
link holds after "api" or "apis", and there is no reference without a self link then; name,
namespace, UID and resource version are the object's. -/
def GetReference (scheme : Scheme) (obj : RuntimeObject) :
    Except Error (Option ObjectReference) :=
  let kind := (typeMetaOf obj).Kind
  let kindOrErr : Except Error String :=
    if kind = "" then
      match scheme.ObjectKinds obj with
      | .error err => .error err
      | .ok gvk => .ok gvk.Kind
    else .ok kind
  match kindOrErr with
  | .error err => .error err
  | .ok kind =>
    let version := groupVersionOf (typeMetaOf obj).APIVersion
    let selfLink := (objectMetaOf obj).SelfLink
    let versionOrErr : Except Error String :=
      if version = "" then
        if selfLink = "" then .error ErrNoSelfLink
        else .ok (versionAfterAPI ((splitOnSlash selfLink.toList).map String.mk))
      else .ok version
    match versionOrErr with
    | .error err => .error err
    | .ok version =>
      .ok (some
        { Kind := kind
          APIVersion := version
          Name := (objectMetaOf obj).Name
          Namespace := (objectMetaOf obj).Namespace
          UID := (objectMetaOf obj).UID
          ResourceVersion := (objectMetaOf obj).ResourceVersion })

/-- The function objectReference returns a reference to the given object, but will set the
configured deployment namespace if no namespace was previously set. -/
def Reconciler.objectReference (r : Reconciler) (obj : RuntimeObject) : Option ObjectReference :=
  match GetReference r.scheme obj with
  | .error _ => none
  | .ok ref =>
    match ref with
    | some ref0 =>
      if ref0.Namespace = "" then some { ref0 with Namespace := r.config.Namespace } else ref
    | none => ref

/-! ## Library functions the controller calls -/

/-- One operand of `equality.Semantic.DeepEqual`, an `interface{}`: the value together with its
dynamic type, which is either `corev1.PodSpec` or `*corev1.PodSpec` (non-nil) here. -/
inductive Dynamic where
  | PodSpec (v : PodSpec)
  | PtrPodSpec (v : PodSpec)
  deriving DecidableEq

/-- Semantic equality of two pod specs: field by field, a nil map and an empty map being equal
(lists already identify the nil and the empty slice). -/
def podSpecDeepEqual (a b : PodSpec) : Bool :=
  decide (a.ServiceAccountName = b.ServiceAccountName) &&
  decide (a.PriorityClassName = b.PriorityClassName) &&
  decide (a.NodeSelector.getD ∅ = b.NodeSelector.getD ∅) &&
  decide (a.Containers = b.Containers) &&
  decide (a.Tolerations = b.Tolerations) &&
  decide (a.RestartPolicy = b.RestartPolicy) &&
  decide (a.SchedulerName = b.SchedulerName)

/-- The function `equality.Semantic.DeepEqual` of apimachinery: operands of different dynamic
types are unequal (`if v1.Type() != v2.Type() { return false }`); operands of the same type are
compared in depth, a pointer through what it points to. -/
def SemanticDeepEqual : Dynamic → Dynamic → Bool
  | .PodSpec a, .PodSpec b => podSpecDeepEqual a b
  | .PtrPodSpec a, .PtrPodSpec b => podSpecDeepEqual a b
  | .PodSpec _, .PtrPodSpec _ => false
  | .PtrPodSpec _, .PodSpec _ => false

/-- The function `metav1.NewControllerRef`. -/
def NewControllerRef (owner : ObjectMeta) (gvk : GroupVersionKind) : OwnerReference :=
  { APIVersion := GroupVersionString gvk.Group gvk.Version
    Kind := gvk.Kind
    Name := owner.Name
    UID := owner.UID
    BlockOwnerDeletion := some true
    Controller := some true }

/-- The helper `referSameObject` of controllerutil: same group, kind and name. -/
def referSameObject (a b : OwnerReference) : Bool :=
  match ParseGroupVersion a.APIVersion, ParseGroupVersion b.APIVersion with
  | some aGV, some bGV => decide (aGV.1 = bGV.1) && decide (a.Kind = b.Kind) &&
      decide (a.Name = b.Name)
  | _, _ => false

/-- The loop of `SetControllerReference` over the existing owner references, from index `i` on:
the index of the last reference to the same object found so far, or the reference of another
controller that stops the loop. -/
def scanOwnerReferences (ref : OwnerReference) :
    List OwnerReference → Nat → Option Nat → Except OwnerReference (Option Nat)
  | [], _, fi => .ok fi
  | r :: rest, i, fi =>
    if referSameObject ref r then scanOwnerReferences ref rest (i + 1) (some i)
    else if r.Controller = some true then .error r
    else scanOwnerReferences ref rest (i + 1) fi

/-- The function `controllerutil.SetControllerReference` of controller-runtime, with the
Controller Resource as owner and a Deployment as object: it looks the owner's kind up in the
scheme, refuses an object that another controller owns, and otherwise appends the controller
reference to the object's owner references or overwrites the one to the same owner. -/
def SetControllerReference (scheme : Scheme) (owner : VerticalPodAutoscalerController)
    (object : Deployment) : Except Error Deployment :=
  match scheme.GVKForObject owner with
  | .error err => .error err
  | .ok gvk =>
    let ref := NewControllerRef owner.ObjectMeta gvk
    let existingRefs := object.ObjectMeta.OwnerReferences
    match scanOwnerReferences ref existingRefs 0 none with
    | .error other =>
      .error ⟨StatusReason.Unknown,
        "Object " ++ object.ObjectMeta.Namespace ++ "/" ++ object.ObjectMeta.Name ++
          " is already owned by another " ++ other.Kind ++ " controller " ++ other.Name⟩
    | .ok fi =>
      let existingRefs :=
        match fi with
        | none => existingRefs ++ [ref]
        | some i => existingRefs.set i ref
      .ok { object with ObjectMeta := { object.ObjectMeta with OwnerReferences := existingRefs } }

/-! ## The client and the recorder as state -/

/-- The objects in the store, by kind. -/
structure Store where
  vpas : List VerticalPodAutoscalerController
  deployments : List Deployment
  deriving DecidableEq

/-- A call on the client. -/
inductive Call where
  | GetVPA (key : NamespacedName)
  | GetDeployment (key : NamespacedName)
  | Create (obj : Deployment)
  | Update (obj : Deployment)
  deriving DecidableEq

/-- A call on the event recorder, logged as it is made, whatever the object reference (nil
included). `ViaEventf` says that the message was passed to `Eventf` as a format string without
arguments rather than to `Event` as the text. -/
structure Event where
  Object : Option ObjectReference
  Eventtype : String
  Reason : String
  Message : String
  ViaEventf : Bool
  deriving DecidableEq

def EventTypeNormal : String := "Normal"

def EventTypeWarning : String := "Warning"

/-- The state behind the reconciler's client and recorder: the store, the calls issued on the
client so far, the events recorded so far, and `faults`, which scripts the calls to come: each
client call takes the head of the script; `some e` makes that call fail with `e` and leave the
store alone, `none` (or an empty script) lets the call act on the store. -/
structure Cluster where
  store : Store
  faults : List (Option Error)
  calls : List Call
  events : List Event
  deriving DecidableEq

/-- Whether an object's metadata carries the given namespace and name. -/
def hasKey (key : NamespacedName) (m : ObjectMeta) : Bool :=
  decide (m.Namespace = key.Namespace) && decide (m.Name = key.Name)

/-- The not-found error of the store. -/
def notFoundError (key : NamespacedName) : Error :=
  ⟨StatusReason.NotFound, "\"" ++ key.Name ++ "\" not found"⟩

/-- The already-exists error of the store. -/
def alreadyExistsError (key : NamespacedName) : Error :=
  ⟨StatusReason.AlreadyExists, "\"" ++ key.Name ++ "\" already exists"⟩

/-- Log a client call and take the next entry of the fault script. -/
def Cluster.issue (c : Cluster) (call : Call) : Option Error × Cluster :=
  (c.faults.head?.join, { c with calls := c.calls ++ [call], faults := c.faults.tail })

/-- The call `client.Get` for a Controller Resource. -/
def Cluster.GetVPA (c : Cluster) (key : NamespacedName) :
    Except Error VerticalPodAutoscalerController × Cluster :=
  match c.issue (Call.GetVPA key) with
  | (some err, c1) => (.error err, c1)
  | (none, c1) =>
    match c1.store.vpas.find? (fun o => hasKey key o.ObjectMeta) with
    | some o => (.ok o, c1)
    | none => (.error (notFoundError key), c1)

/-- The call `client.Get` for a Deployment. -/
def Cluster.GetDeployment (c : Cluster) (key : NamespacedName) :
    Except Error Deployment × Cluster :=
  match c.issue (Call.GetDeployment key) with
  | (some err, c1) => (.error err, c1)
  | (none, c1) =>
    match c1.store.deployments.find? (fun o => hasKey key o.ObjectMeta) with
    | some o => (.ok o, c1)
    | none => (.error (notFoundError key), c1)

/-- The call `client.Create` for a Deployment: it adds the object unless one is stored under
its namespace and name. -/
def Cluster.Create (c : Cluster) (obj : Deployment) : Option Error × Cluster :=
  match c.issue (Call.Create obj) with
  | (some err, c1) => (some err, c1)
  | (none, c1) =>
    let key : NamespacedName := ⟨obj.ObjectMeta.Namespace, obj.ObjectMeta.Name⟩
    if c1.store.deployments.any (fun o => hasKey key o.ObjectMeta) then
      (some (alreadyExistsError key), c1)
    else
      (none, { c1 with store := { c1.store with deployments := c1.store.deployments ++ [obj] } })

/-- The call `client.Update` for a Deployment: it replaces the object stored under its
namespace and name. -/
def Cluster.Update (c : Cluster) (obj : Deployment) : Option Error × Cluster :=
  match c.issue (Call.Update obj) with
  | (some err, c1) => (some err, c1)
  | (none, c1) =>
    let key : NamespacedName := ⟨obj.ObjectMeta.Namespace, obj.ObjectMeta.Name⟩
    if c1.store.deployments.any (fun o => hasKey key o.ObjectMeta) then
      let replaced := c1.store.deployments.map (fun o => if hasKey key o.ObjectMeta then obj else o)
      (none, { c1 with store := { c1.store with deployments := replaced } })
    else
      (some (notFoundError key), c1)

/-- The call `recorder.Event`. -/
def Cluster.Event (c : Cluster) (object : Option ObjectReference)
    (eventtype reason message : String) : Cluster :=
  { c with events := c.events ++ [⟨object, eventtype, reason, message, false⟩] }

/-- The call `recorder.Eventf` with a format string and no arguments. -/
def Cluster.Eventf (c : Cluster) (object : Option ObjectReference)
    (eventtype reason messageFmt : String) : Cluster :=
  { c with events := c.events ++ [⟨object, eventtype, reason, messageFmt, true⟩] }

/-- The method `NamespacedName.String`. -/
def NamespacedName.String (n : NamespacedName) : String :=
  n.Namespace ++ "/" ++ n.Name

/-! ## The reconciler's operations on the cluster -/

/-- GetAutoscaler will return the deployment for the given VerticalPodAutoscalerController
custom resource instance. -/
def Reconciler.GetAutoscaler (r : Reconciler) (vpa : VerticalPodAutoscalerController)
    (c : Cluster) : Except Error Deployment × Cluster :=
  let nn := r.RecommenderName vpa
  match c.GetDeployment nn with
  | (.error err, c1) => (.error err, c1)
  | (.ok deployment, c1) => (.ok deployment, c1)

/-- CreateAutoscaler will create the deployment for the given VerticalPodAutoscalerController
custom resource instance. -/
def Reconciler.CreateAutoscaler (r : Reconciler) (vpa : VerticalPodAutoscalerController)
    (c : Cluster) : Option Error × Cluster :=
  let deployment := r.AutoscalerDeployment vpa
  match SetControllerReference r.scheme vpa deployment with
  | .error err => (some err, c)
  | .ok deployment => c.Create deployment

/-- UpdateAutoscaler will retrieve the deployment for the given VerticalPodAutoscalerController
custom resource instance and update it to match the expected spec if needed. -/
def Reconciler.UpdateAutoscaler (r : Reconciler) (vpa : VerticalPodAutoscalerController)
    (c : Cluster) : Option Error × Cluster :=
  match r.GetAutoscaler vpa c with
  | (.error err, c1) => (some err, c1)
  | (.ok existingDeployment, c1) =>
    let existingSpec := existingDeployment.Spec.Template.Spec
    let expectedSpec := r.RecommenderPodSpec vpa
    if SemanticDeepEqual (Dynamic.PodSpec existingSpec) (Dynamic.PtrPodSpec expectedSpec) &&
        r.deps.ReleaseVersionMatches vpa.ObjectMeta r.config.ReleaseVersion then
      (none, c1)
    else
      let d1 : Deployment :=
        { existingDeployment with
          Spec := { existingDeployment.Spec with
            Template := { existingDeployment.Spec.Template with Spec := expectedSpec } } }
      let d2 : Deployment := { d1 with ObjectMeta := r.UpdateAnnotations d1.ObjectMeta }
      let d3 : Deployment :=
        { d2 with
          Spec := { d2.Spec with
            Template := { d2.Spec.Template with
              ObjectMeta := r.UpdateAnnotations d2.Spec.Template.ObjectMeta } } }
      c1.Update d3

/-- The error of a fallible result, nil on success. -/
def errOf {α : Type} : Except Error α → Option Error
  | .error e => some e
  | .ok _ => none

/-- The text of an error under the verb `%v`. -/
def errorText : Option Error → String
  | some e => e.Message
  | none => "<nil>"

/-- Reconcile reads that state of the cluster for a VerticalPodAutoscalerController object and
makes changes based on the state read and what is in the VerticalPodAutoscalerController.Spec. -/
def Reconciler.Reconcile (r : Reconciler) (request : Request) (c : Cluster) :
    (Result × Option Error) × Cluster :=
  match c.GetVPA request.NamespacedName with
  | (.error err, c1) =>
    if IsNotFound (some err) then ((Result.empty, none), c1)
    else ((Result.empty, some err), c1)
  | (.ok vpa, c1) =>
    let vpaRef := r.objectReference (RuntimeObject.vpa vpa)
    match r.GetAutoscaler vpa c1 with
    | (got, c2) =>
      let err := errOf got
      if err.isSome && !IsNotFound err then
        let errMsg := "Error getting vertical-pod-autoscaler deployment: " ++ errorText err
        ((Result.empty, err), c2.Event vpaRef EventTypeWarning "FailedGetDeployment" errMsg)
      else if IsNotFound err then
        match r.CreateAutoscaler vpa c2 with
        | (some err, c3) =>
          let errMsg :=
            "Error creating VerticalPodAutoscalerController deployment: " ++ errorText (some err)
          ((Result.empty, some err), c3.Event vpaRef EventTypeWarning "FailedCreate" errMsg)
        | (none, c3) =>
          let msg := "Created VerticalPodAutoscalerController deployment: " ++
            (r.RecommenderName vpa).String
          ((Result.empty, none), c3.Eventf vpaRef EventTypeNormal "SuccessfulCreate" msg)
      else
        match r.UpdateAutoscaler vpa c2 with
        | (some err, c3) =>
          let errMsg :=
            "Error updating vertical-pod-autoscaler deployment: " ++ errorText (some err)
          ((Result.empty, some err), c3.Event vpaRef EventTypeWarning "FailedUpdate" errMsg)
        | (none, c3) =>
          let msg := "Updated VerticalPodAutoscalerController deployment: " ++
            (r.RecommenderName vpa).String
          ((Result.empty, none), c3.Eventf vpaRef EventTypeNormal "SuccessfulUpdate" msg)

/-! ## Concrete objects, taken from the package's tests -/

/-- Modelled from the spec: the helper `util.ReleaseVersionMatches`, which is not among the
sources. The release-version marker is an annotation; the helper compares the marker on the
object it is given with the version it is given. The key is a parameter. -/
def specReleaseVersionMatches (key : String) (obj : ObjectMeta) (version : String) : Bool :=
  match obj.Annotations with
  | none => false
  | some m => decide (m.lookup key = some version)

/-- An instance of the missing parts, for evaluating the controller on examples: two distinct
annotation keys, the helper as the spec describes it, and a stand-in for the argument list,
which no property below looks into. -/
def testDeps : Deps :=
  { CriticalPodAnnotation := "critical-pod"
    ReleaseVersionAnnotation := "release-version"
    ReleaseVersionMatches := specReleaseVersionMatches "release-version"
    RecommenderArgs := fun _ cfg => ["--recommender-name=" ++ cfg.Namespace] }

/-- A scheme in which the Controller Resource and the Deployment are registered. -/
def testScheme : Scheme :=
  { ObjectKinds := fun obj =>
      match obj with
      | .vpa _ => .ok ⟨"autoscaling.openshift.io", "v1", "VerticalPodAutoscalerController"⟩
      | .deployment _ => .ok ⟨"apps", "v1", "Deployment"⟩
    GVKForObject := fun _ =>
      .ok ⟨"autoscaling.openshift.io", "v1", "VerticalPodAutoscalerController"⟩ }

/-- A scheme in which nothing is registered: every lookup fails. -/
def emptyScheme : Scheme :=
  { ObjectKinds := fun _ => .error ⟨StatusReason.Unknown, "no kind is registered"⟩
    GVKForObject := fun _ => .error ⟨StatusReason.Unknown, "no kind is registered"⟩ }

def TestNamespace : String := "test-namespace"

def TestReleaseVersion : String := "v100"

/-- The value `TestReconcilerConfig` of the tests. -/
def TestReconcilerConfig : Config :=
  { Name := "test", Namespace := TestNamespace, ReleaseVersion := TestReleaseVersion
    Image := "test/test:v100", Verbosity := 10, ExtraArgs := "" }

/-- The configuration `cfg1` of `TestReconcile`. -/
def cfg1 : Config :=
  { ReleaseVersion := "test-1", Name := "test", Namespace := TestNamespace
    Image := "", Verbosity := 0, ExtraArgs := "" }

/-- The configuration `cfg2` of `TestReconcile`: as `cfg1`, under another singleton name. -/
def cfg2 : Config :=
  { ReleaseVersion := "test-1", Name := "test2", Namespace := TestNamespace
    Image := "", Verbosity := 0, ExtraArgs := "" }

/-- An object's metadata with a name and a namespace and nothing else. -/
def namedMeta (name ns : String) : ObjectMeta :=
  { Name := name, Namespace := ns, UID := "", ResourceVersion := "", SelfLink := ""
    Generation := 0
    Labels := none, Annotations := none, OwnerReferences := [] }

/-- The Controller Resource built by `NewVerticalPodAutoscaler` in the tests; the three floats
0.5, 0.1 and 25 are given by their bit patterns. -/
def NewVerticalPodAutoscaler : VerticalPodAutoscalerController :=
  { TypeMeta := { Kind := "VerticalPodAutoscalerController"
                  APIVersion := "autoscaling.openshift.io/v1" }
    ObjectMeta := namedMeta "test" TestNamespace
    Spec := { SafetyMarginFraction := some ⟨0x3FE0000000000000⟩
              PodMinCPUMillicores := some ⟨0x3FB999999999999A⟩
              PodMinMemoryMb := some ⟨0x4039000000000000⟩ } }

/-- The pod spec with every field at its zero value. -/
def emptyPodSpec : PodSpec :=
  { ServiceAccountName := "", PriorityClassName := "", NodeSelector := none
    Containers := [], Tolerations := [], RestartPolicy := "", SchedulerName := "" }

/-- The Deployment `dep1` of `TestReconcile`. -/
def dep1 : Deployment :=
  { TypeMeta := { Kind := "", APIVersion := "" }
    ObjectMeta :=
      { namedMeta "vertical-pod-autoscaler-test" TestNamespace with
        Annotations := some ((∅ : StringMap).insert "release-version" "test-1")
        Generation := 1 }
    Spec := { Replicas := none, Selector := none
              Template := { ObjectMeta := namedMeta "" "", Spec := emptyPodSpec } }
    Status := { ObservedGeneration := 1, UpdatedReplicas := 1, Replicas := 1
                AvailableReplicas := 1 } }

/-- The request `req` of `TestReconcile`. -/
def req : Request := ⟨⟨TestNamespace, "test"⟩⟩

/-- A cluster that holds the given objects, with no call issued, no event recorded and no
failure scripted. -/
def Cluster.ofObjects (vpas : List VerticalPodAutoscalerController)
    (deployments : List Deployment) : Cluster :=
  { store := ⟨vpas, deployments⟩, faults := [], calls := [], events := [] }

/-- The reconciler of the tests: `newFakeReconciler` with `TestReconcilerConfig`. -/
def testReconciler : Reconciler := ⟨testDeps, testScheme, TestReconcilerConfig⟩

/-- The object of the case "no namespace" of `TestObjectReference`. -/
def clusterScoped : VerticalPodAutoscalerController :=
  { TypeMeta := { Kind := "VerticalPodAutoscalerController"
                  APIVersion := "autoscaling.openshift.io/v1" }
    ObjectMeta := namedMeta "cluster-scoped" ""
    Spec := ⟨none, none, none⟩ }

/-- The reference expected in the case "no namespace" of `TestObjectReference`. -/
def clusterScopedReference : ObjectReference :=
  { Kind := "VerticalPodAutoscalerController", APIVersion := "autoscaling.openshift.io/v1"
    Name := "cluster-scoped", Namespace := TestNamespace, UID := "", ResourceVersion := "" }

/-- The annotations the controller expects on an object it manages. -/
def Reconciler.expectedAnnotations (r : Reconciler) : StringMap :=
  (∅ : StringMap).insert r.deps.CriticalPodAnnotation "" |>.insert
    r.deps.ReleaseVersionAnnotation r.config.ReleaseVersion

/-- The labels `AutoscalerDeployment` gives to the selector and to the pod template. -/
def recommenderLabels (name : String) : StringMap :=
  (∅ : StringMap).insert "vertical-pod-autoscaler" name |>.insert "app" "vertical-pod-autoscaler"

/-- The Deployment with its owner references replaced. -/
def Deployment.withOwnerReferences (d : Deployment) (refs : List OwnerReference) : Deployment :=
  { d with ObjectMeta := { d.ObjectMeta with OwnerReferences := refs } }

/-- The reconciler of case 0 and case 2 of `TestReconcile`. -/
def reconciler1 : Reconciler := ⟨testDeps, testScheme, cfg1⟩

/-- The reconciler of case 1 of `TestReconcile`: the configured singleton name is "test2". -/
def reconciler2 : Reconciler := ⟨testDeps, testScheme, cfg2⟩

/-- The store of `TestReconcile`, cases 0 and 1: the Controller Resource "test" and `dep1`. -/
def testCluster : Cluster := Cluster.ofObjects [NewVerticalPodAutoscaler] [dep1]

/-- The annotations an object carries after the controller has refreshed them: the previous
ones (none counting as the empty map) with the two expected entries set. -/
def Reconciler.refreshed (r : Reconciler) (previous : Option StringMap) : StringMap :=
  (previous.getD ∅).insert r.deps.CriticalPodAnnotation "" |>.insert
    r.deps.ReleaseVersionAnnotation r.config.ReleaseVersion

/-- The Controller Resource of the tests, carrying the release version of `cfg1` as its
release-version annotation. -/
def annotatedVPA : VerticalPodAutoscalerController :=
  { NewVerticalPodAutoscaler with
    ObjectMeta := { namedMeta "test" TestNamespace with
      Annotations := some ((∅ : StringMap).insert "release-version" "test-1") } }

/-- The kind under which `testScheme` knows the Controller Resource. -/
def testGVK : GroupVersionKind :=
  ⟨"autoscaling.openshift.io", "v1", "VerticalPodAutoscalerController"⟩

/-- The Deployment that Reconcile creates for `annotatedVPA` under `cfg1`. -/
def convergedDeployment : Deployment :=
  (reconciler1.AutoscalerDeployment annotatedVPA).withOwnerReferences
    [NewControllerRef annotatedVPA.ObjectMeta testGVK]

/-- A store in which nothing is left to do: `annotatedVPA` and the Deployment created for it. -/
def convergedCluster : Cluster := Cluster.ofObjects [annotatedVPA] [convergedDeployment]

/-- A Deployment stored under the recommender's name that is out of date in every respect:
another release version, labels and a replica count of its own, an empty pod spec. -/
def staleDeployment : Deployment :=
  { TypeMeta := { Kind := "Deployment", APIVersion := "apps/v1" }
    ObjectMeta :=
      { namedMeta "vpa-recommender-test" TestNamespace with
        Labels := some ((∅ : StringMap).insert "team" "autoscaling")
        Annotations := some ((∅ : StringMap).insert "release-version" "v0") }
    Spec := { Replicas := some 3, Selector := none
              Template := { ObjectMeta := namedMeta "" ""
                            Spec := { emptyPodSpec with RestartPolicy := "Always" } } }
    Status := { ObservedGeneration := 1, UpdatedReplicas := 3, Replicas := 3
                AvailableReplicas := 3 } }

/-- The Controller Resource of the tests and `staleDeployment`. -/
def staleCluster : Cluster := Cluster.ofObjects [NewVerticalPodAutoscaler] [staleDeployment]

/-- An error of the store that is not a not-found error. -/
def serverError : Error := ⟨StatusReason.Unknown, "the server is unavailable"⟩

/-- The given cluster with a script of failures for the calls to come. -/
def Cluster.withFaults (c : Cluster) (faults : List (Option Error)) : Cluster :=
  { c with faults := faults }

/-- The store of the tests, where the second client call, the get of the Deployment, fails. -/
def getFailsCluster : Cluster := testCluster.withFaults [none, some serverError]

/-- The store of the tests, where the third client call, the create, fails. -/
def createFailsCluster : Cluster := testCluster.withFaults [none, none, some serverError]

/-- A store with an out-of-date Deployment, where the fourth client call, the update, fails. -/
def updateFailsCluster : Cluster := staleCluster.withFaults [none, none, none, some serverError]

/-- The object UpdateAutoscaler hands to client.Update for an existing Deployment: the pod
template spec replaced by the expected one, then the annotations refreshed on the Deployment and
on its pod template. -/
def Reconciler.updated (r : Reconciler) (vpa : VerticalPodAutoscalerController)
    (existing : Deployment) : Deployment :=
  { existing with
    ObjectMeta := r.UpdateAnnotations existing.ObjectMeta
    Spec := { existing.Spec with
      Template := { ObjectMeta := r.UpdateAnnotations existing.Spec.Template.ObjectMeta
                    Spec := r.RecommenderPodSpec vpa } } }

/-- The store that Reconcile leaves behind when the script fails none of its client calls
(`Reconcile_store_of_no_fault` below): unchanged when the Controller Resource is missing or the
owner reference cannot be set, with the new Deployment added when none is stored under the
recommender's name, and with the stored Deployment replaced by its update otherwise. -/
def Reconciler.storeAfter (r : Reconciler) (request : Request) (s : Store) : Store :=
  match s.vpas.find? (fun o => hasKey request.NamespacedName o.ObjectMeta) with
  | none => s
  | some vpa =>
    match s.deployments.find? (fun o => hasKey (r.RecommenderName vpa) o.ObjectMeta) with
    | none =>
      match SetControllerReference r.scheme vpa (r.AutoscalerDeployment vpa) with
      | .error _ => s
      | .ok d => { s with deployments := s.deployments ++ [d] }
    | some existing =>
      let replaced := s.deployments.map
        (fun o => if hasKey (r.RecommenderName vpa) o.ObjectMeta then r.updated vpa existing else o)
      { s with deployments := replaced }

/-- The number of Deployments the store holds under a namespace and name. -/
def Store.countDeployments (s : Store) (key : NamespacedName) : Nat :=
  (s.deployments.filter (fun o => hasKey key o.ObjectMeta)).length

/-- The Controller Resource "test" as a typed client hands it over: cluster-scoped, its type
metadata empty, its self link set by the server. -/
def fetchedVPA : VerticalPodAutoscalerController :=
  { TypeMeta := { Kind := "", APIVersion := "" }
    ObjectMeta :=
      { namedMeta "test" "" with
        SelfLink := "/apis/autoscaling.openshift.io/v1/verticalpodautoscalercontrollers/test" }
    Spec := ⟨none, none, none⟩ }

/-- The Controller Resource "test" with its API version but without its kind. -/
def kindlessVPA : VerticalPodAutoscalerController :=
  { TypeMeta := { Kind := "", APIVersion := "autoscaling.openshift.io/v1" }
    ObjectMeta := namedMeta "test" ""
    Spec := ⟨none, none, none⟩ }

/-! ## Properties of the pure parts -/

theorem lookup_expected_critical (crit rel ver : String) (m : StringMap) (h : crit ≠ rel) :
    ((m.insert crit "").insert rel ver).lookup crit = some "" := by
  rw [Finmap.lookup_insert_of_ne _ h, Finmap.lookup_insert]

theorem lookup_expected_other (crit rel ver k : String) (m : StringMap) (h1 : k ≠ crit)
    (h2 : k ≠ rel) : ((m.insert crit "").insert rel ver).lookup k = m.lookup k := by
  rw [Finmap.lookup_insert_of_ne _ h2, Finmap.lookup_insert_of_ne _ h1]

theorem insert_expected_twice (crit rel ver : String) (m : StringMap) :
    ((((m.insert crit "").insert rel ver).insert crit "").insert rel ver) =
      (m.insert crit "").insert rel ver := by
  apply Finmap.ext_lookup
  intro k
  by_cases h2 : k = rel
  · subst h2
    rw [Finmap.lookup_insert, Finmap.lookup_insert]
  · by_cases h1 : k = crit
    · subst h1
      rw [Finmap.lookup_insert_of_ne _ h2, Finmap.lookup_insert,
        Finmap.lookup_insert_of_ne _ h2, Finmap.lookup_insert]
    · rw [lookup_expected_other _ _ _ _ _ h1 h2, lookup_expected_other _ _ _ _ _ h1 h2]

theorem insert_expected_of_subset (crit rel ver : String) (m : StringMap)
    (hsub : ∀ k, k ∈ m → k = crit ∨ k = rel) :
    (m.insert crit "").insert rel ver = ((∅ : StringMap).insert crit "").insert rel ver := by
  apply Finmap.ext_lookup
  intro k
  by_cases h2 : k = rel
  · subst h2
    rw [Finmap.lookup_insert, Finmap.lookup_insert]
  · by_cases h1 : k = crit
    · subst h1
      rw [Finmap.lookup_insert_of_ne _ h2, Finmap.lookup_insert_of_ne _ h2,
        Finmap.lookup_insert, Finmap.lookup_insert]
    · rw [lookup_expected_other _ _ _ _ _ h1 h2, lookup_expected_other _ _ _ _ _ h1 h2,
        Finmap.lookup_empty, Finmap.lookup_eq_none]
      intro hk
      rcases hsub k hk with h | h
      · exact h1 h
      · exact h2 h

theorem dropWhile_of_count (l : List Char) (h : 0 < l.count '/') :
    l.dropWhile (fun c => c ≠ '/') = '/' :: (l.dropWhile (fun c => c ≠ '/')).tail := by
  induction l with
  | nil => simp at h
  | cons a t ih =>
    by_cases ha : a = '/'
    · subst ha
      simp [List.dropWhile]
    · have h2 : 0 < t.count '/' := by
        rw [List.count_cons] at h
        simpa [ha] using h
      simp only [List.dropWhile, ha, ne_eq, not_false_eq_true, decide_True]
      exact ih h2

theorem groupVersionOf_eq (s : String) (h : isGroupVersion s = true) : groupVersionOf s = s := by
  simp only [isGroupVersion, Bool.and_eq_true, decide_eq_true_eq] at h
  obtain ⟨⟨hne, hcount⟩, hhead⟩ := h
  have hslash : s ≠ "/" := by
    intro hs
    rw [hs] at hhead
    exact hhead rfl
  have hor : ¬ (s = "" ∨ s = "/") := by
    intro hc
    rcases hc with hc | hc
    · exact hne hc
    · exact hslash hc
  by_cases h0 : s.toList.count '/' = 0
  · have hp : ParseGroupVersion s = some ("", s) := by
      unfold ParseGroupVersion
      rw [if_neg hor, if_pos h0]
    unfold groupVersionOf
    rw [hp]
    simp [GroupVersionString]
  · have h1 : s.toList.count '/' = 1 := by omega
    have hdw := dropWhile_of_count s.toList (by omega)
    have hp : ParseGroupVersion s =
        some (String.mk (s.toList.takeWhile (fun c => c ≠ '/')),
          String.mk (s.toList.dropWhile (fun c => c ≠ '/')).tail) := by
      unfold ParseGroupVersion
      rw [if_neg hor, if_neg h0, if_pos h1]
    have htw : s.toList.takeWhile (fun c => c ≠ '/') ≠ [] := by
      cases hl : s.toList with
      | nil =>
        rw [hl] at h1
        simp at h1
      | cons a t =>
        rw [hl] at hhead
        have ha : a ≠ '/' := by simpa using hhead
        simp [List.takeWhile, ha]
    have hg : String.mk (s.toList.takeWhile (fun c => c ≠ '/')) ≠ "" := by
      intro hc
      apply htw
      exact congrArg String.data hc
    unfold groupVersionOf
    rw [hp]
    simp only [GroupVersionString]
    rw [if_pos hg]
    apply String.ext
    simp only [String.data_append]
    show _ ++ ['/'] ++ _ = s.toList
    rw [List.append_assoc, List.singleton_append, ← hdw, List.takeWhile_append_dropWhile]

theorem GetReference_fields (scheme : Scheme) (obj : RuntimeObject) (ref : ObjectReference)
    (h : GetReference scheme obj = .ok (some ref)) :
    ref.Name = (objectMetaOf obj).Name ∧ ref.Namespace = (objectMetaOf obj).Namespace ∧
      ref.UID = (objectMetaOf obj).UID ∧
      ref.ResourceVersion = (objectMetaOf obj).ResourceVersion ∧
      ((typeMetaOf obj).Kind ≠ "" → ref.Kind = (typeMetaOf obj).Kind) ∧
      ((typeMetaOf obj).Kind = "" →
        ∃ gvk : GroupVersionKind, scheme.ObjectKinds obj = .ok gvk ∧ ref.Kind = gvk.Kind) ∧
      (groupVersionOf (typeMetaOf obj).APIVersion ≠ "" →
        ref.APIVersion = groupVersionOf (typeMetaOf obj).APIVersion) ∧
      (groupVersionOf (typeMetaOf obj).APIVersion = "" →
        (objectMetaOf obj).SelfLink ≠ "" ∧ ref.APIVersion =
          versionAfterAPI ((splitOnSlash (objectMetaOf obj).SelfLink.toList).map String.mk)) := by
  unfold GetReference at h
  simp only [] at h
  by_cases hk : (typeMetaOf obj).Kind = ""
  · rw [if_pos hk] at h
    cases hreg : scheme.ObjectKinds obj with
    | error e =>
      rw [hreg] at h
      simp only [] at h
      cases h
    | ok gvk =>
      rw [hreg] at h
      simp only [] at h
      by_cases hv : groupVersionOf (typeMetaOf obj).APIVersion = ""
      · rw [if_pos hv] at h
        by_cases hs : (objectMetaOf obj).SelfLink = ""
        · rw [if_pos hs] at h
          simp only [] at h
          cases h
        · rw [if_neg hs] at h
          simp only [] at h
          injection h with h
          injection h with h
          subst h
          exact ⟨rfl, rfl, rfl, rfl, fun hc => absurd hk hc, fun _ => ⟨gvk, rfl, rfl⟩,
            fun hc => absurd hv hc, fun _ => ⟨hs, rfl⟩⟩
      · rw [if_neg hv] at h
        simp only [] at h
        injection h with h
        injection h with h
        subst h
        exact ⟨rfl, rfl, rfl, rfl, fun hc => absurd hk hc, fun _ => ⟨gvk, rfl, rfl⟩,
          fun _ => rfl, fun hc => absurd hc hv⟩
  · rw [if_neg hk] at h
    simp only [] at h
    by_cases hv : groupVersionOf (typeMetaOf obj).APIVersion = ""
    · rw [if_pos hv] at h
      by_cases hs : (objectMetaOf obj).SelfLink = ""
      · rw [if_pos hs] at h
        simp only [] at h
        cases h
      · rw [if_neg hs] at h
        simp only [] at h
        injection h with h
        injection h with h
        subst h
        exact ⟨rfl, rfl, rfl, rfl, fun _ => rfl, fun hc => absurd hc hk,
          fun hc => absurd hv hc, fun _ => ⟨hs, rfl⟩⟩
    · rw [if_neg hv] at h
      simp only [] at h
      injection h with h
      injection h with h
      subst h
      exact ⟨rfl, rfl, rfl, rfl, fun _ => rfl, fun hc => absurd hc hk,
        fun _ => rfl, fun hc => absurd hc hv⟩

/-- C7, the claim as stated, fails where the object carries no kind or no API version of its
own. For the Controller Resource with its API version but an empty kind, the reference gets the
kind the scheme has registered, "VerticalPodAutoscalerController", not the object's (empty) one.
For the Controller Resource as a typed client hands it over, with empty type metadata and a self
link, the reference gets that registered kind and the API version "autoscaling.openshift.io",
the piece of the self link after "apis", which is neither the object's (empty) API version nor
"autoscaling.openshift.io/v1". -/
theorem objectReference_without_type_metadata :
    (kindlessVPA.TypeMeta.Kind = "" ∧
      testReconciler.objectReference (RuntimeObject.vpa kindlessVPA) =
        some { Kind := "VerticalPodAutoscalerController"
               APIVersion := "autoscaling.openshift.io/v1"
               Name := "test", Namespace := "test-namespace", UID := ""
               ResourceVersion := "" }) ∧
    (fetchedVPA.TypeMeta.Kind = "" ∧ fetchedVPA.TypeMeta.APIVersion = "" ∧
      testReconciler.objectReference (RuntimeObject.vpa fetchedVPA) =
        some { Kind := "VerticalPodAutoscalerController"
               APIVersion := "autoscaling.openshift.io"
               Name := "test", Namespace := "test-namespace", UID := ""
               ResourceVersion := "" }) := by
  decide

/-- C7, amended: when reference construction gives a reference, objectReference returns it
with the namespace replaced by the configured one if the reference has none, and unchanged
otherwise; in both cases name, UID and resource version are those of the object, and the
namespace is the object's unless that is empty; the kind is that of the object when the object
carries one, and otherwise the kind the scheme has registered for the object's type; the API
version is that of the object when the object carries one of the form `version` or
`group/version`, and when the object carries none it is what the object's self link holds after
"api" or "apis"; when reference construction fails, objectReference returns nil. -/
theorem objectReference_spec (r : Reconciler) (obj : RuntimeObject) :
    (∀ ref : ObjectReference, GetReference r.scheme obj = .ok (some ref) →
      (ref.Namespace = "" →
        r.objectReference obj = some { ref with Namespace := r.config.Namespace }) ∧
      (ref.Namespace ≠ "" → r.objectReference obj = some ref) ∧
      ∃ out : ObjectReference, r.objectReference obj = some out ∧
        out.Name = (objectMetaOf obj).Name ∧ out.UID = (objectMetaOf obj).UID ∧
        out.ResourceVersion = (objectMetaOf obj).ResourceVersion ∧
        ((objectMetaOf obj).Namespace ≠ "" → out.Namespace = (objectMetaOf obj).Namespace) ∧
        ((objectMetaOf obj).Namespace = "" → out.Namespace = r.config.Namespace) ∧
        ((typeMetaOf obj).Kind ≠ "" → out.Kind = (typeMetaOf obj).Kind) ∧
        ((typeMetaOf obj).Kind = "" →
          ∃ gvk : GroupVersionKind, r.scheme.ObjectKinds obj = .ok gvk ∧ out.Kind = gvk.Kind) ∧
        (isGroupVersion (typeMetaOf obj).APIVersion = true →
          out.APIVersion = (typeMetaOf obj).APIVersion) ∧
        (groupVersionOf (typeMetaOf obj).APIVersion ≠ "" →
          out.APIVersion = groupVersionOf (typeMetaOf obj).APIVersion) ∧
        (groupVersionOf (typeMetaOf obj).APIVersion = "" →
          out.APIVersion = versionAfterAPI
            ((splitOnSlash (objectMetaOf obj).SelfLink.toList).map String.mk))) ∧
    (∀ e : Error, GetReference r.scheme obj = .error e → r.objectReference obj = none) := by
  refine ⟨fun ref h => ?_, fun e h => ?_⟩
  · obtain ⟨hname, hnsp, huid, hrv, hk1, hk2, hv1, hv2⟩ := GetReference_fields r.scheme obj ref h
    have hgv : isGroupVersion (typeMetaOf obj).APIVersion = true →
        ref.APIVersion = (typeMetaOf obj).APIVersion := by
      intro hwf
      have heq := groupVersionOf_eq _ hwf
      have hne : groupVersionOf (typeMetaOf obj).APIVersion ≠ "" := by
        rw [heq]
        intro hc
        rw [hc] at hwf
        simp [isGroupVersion] at hwf
      rw [hv1 hne, heq]
    by_cases hns : ref.Namespace = ""
    · refine ⟨fun _ => ?_, fun h2 => absurd hns h2, ?_⟩
      · simp [Reconciler.objectReference, h, hns]
      · exact ⟨{ ref with Namespace := r.config.Namespace },
          by simp [Reconciler.objectReference, h, hns], hname, huid, hrv,
          fun hc => absurd (hnsp ▸ hns) hc, fun _ => rfl, hk1, hk2, hgv, hv1,
          fun hc => (hv2 hc).2⟩
    · refine ⟨fun h1 => absurd h1 hns, fun _ => ?_, ?_⟩
      · simp [Reconciler.objectReference, h, hns]
      · exact ⟨ref, by simp [Reconciler.objectReference, h, hns], hname, huid, hrv,
          fun _ => hnsp, fun hc => absurd (hnsp ▸ hc) hns, hk1, hk2, hgv, hv1,
          fun hc => (hv2 hc).2⟩
  · simp [Reconciler.objectReference, h]

/-- The case "no namespace" of `TestObjectReference`, through `objectReference_spec`. -/
theorem objectReference_spec_witness :
    GetReference testScheme (RuntimeObject.vpa clusterScoped) =
        .ok (some { clusterScopedReference with Namespace := "" }) ∧
      testReconciler.objectReference (RuntimeObject.vpa clusterScoped) =
        some clusterScopedReference :=
  ⟨by decide, ((objectReference_spec testReconciler (RuntimeObject.vpa clusterScoped)).1
    { clusterScopedReference with Namespace := "" } (by decide)).1 rfl⟩

theorem UpdateAnnotations_shape (r : Reconciler) (obj : ObjectMeta) :
    r.UpdateAnnotations obj = { obj with Annotations := some (r.refreshed obj.Annotations) } := by
  cases hA : obj.Annotations <;> simp [Reconciler.UpdateAnnotations, Reconciler.refreshed, hA]

/-- C8: after UpdateAnnotations the object's annotations are the previous ones (none at all
counting as the empty map) with the critical-pod key set to the empty string and the
release-version key set to the configured release version: both keys are present with these
values, every other previous key keeps its value, no other key appears, and the rest of the
metadata is untouched; when the previous keys are among those two, the result is exactly the
two-entry map; and a second application changes nothing. -/
theorem UpdateAnnotations_spec (r : Reconciler) (obj : ObjectMeta)
    (hkeys : r.deps.CriticalPodAnnotation ≠ r.deps.ReleaseVersionAnnotation) :
    ∃ m : StringMap,
      r.UpdateAnnotations obj = { obj with Annotations := some m } ∧
      m.lookup r.deps.CriticalPodAnnotation = some "" ∧
      m.lookup r.deps.ReleaseVersionAnnotation = some r.config.ReleaseVersion ∧
      (∀ k : String, k ≠ r.deps.CriticalPodAnnotation → k ≠ r.deps.ReleaseVersionAnnotation →
        m.lookup k = (obj.Annotations.getD ∅).lookup k) ∧
      (∀ k : String, k ∈ m ↔
        (k = r.deps.CriticalPodAnnotation ∨ k = r.deps.ReleaseVersionAnnotation ∨
          k ∈ obj.Annotations.getD ∅)) ∧
      ((∀ k : String, k ∈ obj.Annotations.getD ∅ →
          k = r.deps.CriticalPodAnnotation ∨ k = r.deps.ReleaseVersionAnnotation) →
        m = r.expectedAnnotations) ∧
      r.UpdateAnnotations (r.UpdateAnnotations obj) = r.UpdateAnnotations obj := by
  have hshape := UpdateAnnotations_shape r obj
  unfold Reconciler.refreshed at hshape
  refine ⟨_, hshape, lookup_expected_critical _ _ _ _ hkeys, Finmap.lookup_insert _,
    fun k h1 h2 => lookup_expected_other _ _ _ _ _ h1 h2, fun k => ?_, fun hsub => ?_, ?_⟩
  · rw [Finmap.mem_insert, Finmap.mem_insert]
    tauto
  · exact insert_expected_of_subset _ _ _ _ hsub
  · rw [hshape]
    simp only [Reconciler.UpdateAnnotations]
    rw [insert_expected_twice]

/-- The case "old version annotation" of `TestUpdateAnnotations`, through
`UpdateAnnotations_spec`. -/
theorem UpdateAnnotations_spec_witness :
    testReconciler.deps.CriticalPodAnnotation ≠ testReconciler.deps.ReleaseVersionAnnotation ∧
      ∃ m : StringMap,
        (testReconciler.UpdateAnnotations dep1.ObjectMeta).Annotations = some m ∧
        m.lookup "critical-pod" = some "" ∧ m.lookup "release-version" = some "v100" :=
  ⟨by decide,
    match UpdateAnnotations_spec testReconciler dep1.ObjectMeta (by decide) with
    | ⟨m, h, h1, h2, _⟩ => ⟨m, by rw [h], h1, h2⟩⟩

theorem mem_expectedAnnotations (r : Reconciler) (k : String) :
    k ∈ r.expectedAnnotations ↔
      (k = r.deps.CriticalPodAnnotation ∨ k = r.deps.ReleaseVersionAnnotation) := by
  unfold Reconciler.expectedAnnotations
  rw [Finmap.mem_insert, Finmap.mem_insert]
  have := @Finmap.not_mem_empty String (fun _ => String) k
  tauto

theorem keys_expectedAnnotations (r : Reconciler) :
    r.expectedAnnotations.keys =
      {r.deps.CriticalPodAnnotation, r.deps.ReleaseVersionAnnotation} := by
  ext k
  rw [Finmap.mem_keys, mem_expectedAnnotations, Finset.mem_insert, Finset.mem_singleton]

theorem mem_recommenderLabels (name k : String) :
    k ∈ recommenderLabels name ↔ (k = "vertical-pod-autoscaler" ∨ k = "app") := by
  unfold recommenderLabels
  rw [Finmap.mem_insert, Finmap.mem_insert]
  have := @Finmap.not_mem_empty String (fun _ => String) k
  tauto

theorem lookup_recommenderLabels_name (name : String) :
    (recommenderLabels name).lookup "vertical-pod-autoscaler" = some name := by
  unfold recommenderLabels
  rw [Finmap.lookup_insert_of_ne _ (by decide), Finmap.lookup_insert]

theorem issue_calls (c : Cluster) (call : Call) :
    (c.issue call).2.calls = c.calls ++ [call] ∧ (c.issue call).2.store = c.store ∧
      (c.issue call).2.events = c.events ∧ (c.issue call).2.faults = c.faults.tail := by
  simp [Cluster.issue]

theorem GetDeployment_frame (c : Cluster) (key : NamespacedName) :
    (c.GetDeployment key).2 =
      { c with calls := c.calls ++ [Call.GetDeployment key], faults := c.faults.tail } := by
  unfold Cluster.GetDeployment Cluster.issue
  cases c.faults.head?.join <;> simp only []
  cases List.find? (fun o => hasKey key o.ObjectMeta) c.store.deployments <;> rfl

theorem GetAutoscaler_frame (r : Reconciler) (vpa : VerticalPodAutoscalerController)
    (c : Cluster) :
    (r.GetAutoscaler vpa c).2 =
      { c with calls := c.calls ++ [Call.GetDeployment (r.RecommenderName vpa)]
               faults := c.faults.tail } := by
  have h := GetDeployment_frame c (r.RecommenderName vpa)
  unfold Reconciler.GetAutoscaler
  simp only []
  rcases hres : c.GetDeployment (r.RecommenderName vpa) with ⟨res, c1⟩
  rw [hres] at h
  cases res <;> exact h

/-- C9, the claim as stated, fails: two Controller Resources with different names ("test" and
"cluster-scoped") get different selector labels and different pod template labels. -/
theorem AutoscalerDeployment_labels_differ :
    (testReconciler.AutoscalerDeployment NewVerticalPodAutoscaler).Spec.Selector ≠
        (testReconciler.AutoscalerDeployment clusterScoped).Spec.Selector ∧
      (testReconciler.AutoscalerDeployment NewVerticalPodAutoscaler).Spec.Template.ObjectMeta.Labels
        ≠ (testReconciler.AutoscalerDeployment clusterScoped).Spec.Template.ObjectMeta.Labels := by
  decide

/-- C9, amended: the label set AutoscalerDeployment yields, both as the selector's match-labels
and as the pod template labels, has exactly the two keys "vertical-pod-autoscaler" and "app";
the value under "app" is the fixed string "vertical-pod-autoscaler", the value under
"vertical-pod-autoscaler" is the Controller Resource's name. The set is thus a function of that
name alone (not of the config nor of the rest of the resource), and it is the same for two
Controller Resources exactly when they have the same name. -/
theorem AutoscalerDeployment_labels (r : Reconciler) (vpa : VerticalPodAutoscalerController) :
    (r.AutoscalerDeployment vpa).Spec.Selector =
        some ⟨some (recommenderLabels vpa.ObjectMeta.Name)⟩ ∧
      (r.AutoscalerDeployment vpa).Spec.Template.ObjectMeta.Labels =
        some (recommenderLabels vpa.ObjectMeta.Name) ∧
      (recommenderLabels vpa.ObjectMeta.Name).lookup "vertical-pod-autoscaler" =
        some vpa.ObjectMeta.Name ∧
      (recommenderLabels vpa.ObjectMeta.Name).lookup "app" = some "vertical-pod-autoscaler" ∧
      (∀ k : String, k ∈ recommenderLabels vpa.ObjectMeta.Name ↔
        (k = "vertical-pod-autoscaler" ∨ k = "app")) ∧
      (∀ (r2 : Reconciler) (vpa2 : VerticalPodAutoscalerController),
        (r2.AutoscalerDeployment vpa2).Spec.Template.ObjectMeta.Labels =
            (r.AutoscalerDeployment vpa).Spec.Template.ObjectMeta.Labels ↔
          vpa2.ObjectMeta.Name = vpa.ObjectMeta.Name) := by
  refine ⟨rfl, rfl, lookup_recommenderLabels_name _, ?_, mem_recommenderLabels _, ?_⟩
  · unfold recommenderLabels
    rw [Finmap.lookup_insert]
  · intro r2 vpa2
    constructor
    · intro h
      have h1 : some (recommenderLabels vpa2.ObjectMeta.Name) =
          some (recommenderLabels vpa.ObjectMeta.Name) := h
      have h2 := congrArg (Finmap.lookup "vertical-pod-autoscaler") (Option.some.inj h1)
      rw [lookup_recommenderLabels_name, lookup_recommenderLabels_name] at h2
      exact Option.some.inj h2
    · intro h
      show some (recommenderLabels vpa2.ObjectMeta.Name) =
        some (recommenderLabels vpa.ObjectMeta.Name)
      rw [h]

/-- C10: the Deployment returned by AutoscalerDeployment has the name "vpa-recommender-"
followed by the resource's name and the configured namespace, which is the key RecommenderName
returns and the key of the one client call GetAutoscaler issues; its replica count is 1, its
selector's match-labels are the pod template's labels, its pod template spec is
RecommenderPodSpec(vpa), and the annotations of the Deployment and of the pod template are both
the map with exactly two entries: the critical-pod key with the empty string and the
release-version key with the configured release version. -/
theorem AutoscalerDeployment_spec (r : Reconciler) (vpa : VerticalPodAutoscalerController)
    (hkeys : r.deps.CriticalPodAnnotation ≠ r.deps.ReleaseVersionAnnotation) :
    (r.AutoscalerDeployment vpa).ObjectMeta.Name = "vpa-recommender-" ++ vpa.ObjectMeta.Name ∧
      (r.AutoscalerDeployment vpa).ObjectMeta.Namespace = r.config.Namespace ∧
      r.RecommenderName vpa = ⟨(r.AutoscalerDeployment vpa).ObjectMeta.Namespace,
        (r.AutoscalerDeployment vpa).ObjectMeta.Name⟩ ∧
      (∀ c : Cluster, (r.GetAutoscaler vpa c).2.calls =
        c.calls ++ [Call.GetDeployment ⟨r.config.Namespace,
          "vpa-recommender-" ++ vpa.ObjectMeta.Name⟩]) ∧
      (r.AutoscalerDeployment vpa).Spec.Replicas = some 1 ∧
      (∃ labels : Option StringMap,
        (r.AutoscalerDeployment vpa).Spec.Selector = some ⟨labels⟩ ∧
        (r.AutoscalerDeployment vpa).Spec.Template.ObjectMeta.Labels = labels) ∧
      (r.AutoscalerDeployment vpa).Spec.Template.Spec = r.RecommenderPodSpec vpa ∧
      (r.AutoscalerDeployment vpa).ObjectMeta.Annotations = some r.expectedAnnotations ∧
      (r.AutoscalerDeployment vpa).Spec.Template.ObjectMeta.Annotations =
        some r.expectedAnnotations ∧
      r.expectedAnnotations.lookup r.deps.CriticalPodAnnotation = some "" ∧
      r.expectedAnnotations.lookup r.deps.ReleaseVersionAnnotation =
        some r.config.ReleaseVersion ∧
      r.expectedAnnotations.keys.card = 2 := by
  refine ⟨rfl, rfl, rfl, fun c => ?_, rfl, ⟨_, rfl, rfl⟩, rfl, rfl, rfl,
    lookup_expected_critical _ _ _ _ hkeys, Finmap.lookup_insert _, ?_⟩
  · rw [GetAutoscaler_frame]
    rfl
  · rw [keys_expectedAnnotations, Finset.card_pair hkeys]

/-- The Deployment for the Controller Resource of the tests, through
`AutoscalerDeployment_spec`. -/
theorem AutoscalerDeployment_spec_witness :
    testReconciler.deps.CriticalPodAnnotation ≠ testReconciler.deps.ReleaseVersionAnnotation ∧
      (testReconciler.AutoscalerDeployment NewVerticalPodAutoscaler).ObjectMeta.Name =
        "vpa-recommender-test" ∧
      (testReconciler.AutoscalerDeployment NewVerticalPodAutoscaler).ObjectMeta.Namespace =
        "test-namespace" ∧
      testReconciler.expectedAnnotations.lookup "release-version" = some "v100" :=
  ⟨by decide,
    (AutoscalerDeployment_spec testReconciler NewVerticalPodAutoscaler (by decide)).1,
    (AutoscalerDeployment_spec testReconciler NewVerticalPodAutoscaler (by decide)).2.1,
    (AutoscalerDeployment_spec testReconciler NewVerticalPodAutoscaler (by decide)).2.2.2.2.2.2.2.2.2.2.1⟩

/-! ## Properties of the client model -/

theorem faults_step (c : Cluster) (n : Nat) (call : Call)
    (h : ∀ f ∈ c.faults.take (n + 1), f = none) :
    c.faults.head?.join = none ∧ ∀ f ∈ (c.issue call).2.faults.take n, f = none := by
  cases hf : c.faults with
  | nil => simp [Cluster.issue, hf]
  | cons a rest =>
    rw [hf] at h
    have ha : a = none := h a (by simp)
    refine ⟨by simp [ha], fun f hfm => h f ?_⟩
    have : f ∈ rest.take n := by simpa [Cluster.issue, hf] using hfm
    simp [this]

theorem GetVPA_frame (c : Cluster) (key : NamespacedName) :
    (c.GetVPA key).2 = (c.issue (Call.GetVPA key)).2 := by
  unfold Cluster.GetVPA Cluster.issue
  cases c.faults.head?.join <;> simp only []
  cases List.find? (fun o => hasKey key o.ObjectMeta) c.store.vpas <;> rfl

theorem GetVPA_found (c : Cluster) (key : NamespacedName)
    (vpa : VerticalPodAutoscalerController) (hf : c.faults.head?.join = none)
    (h : c.store.vpas.find? (fun o => hasKey key o.ObjectMeta) = some vpa) :
    c.GetVPA key = (.ok vpa, (c.issue (Call.GetVPA key)).2) := by
  simp only [Cluster.GetVPA, Cluster.issue, hf, h]

theorem GetDeployment_found (c : Cluster) (key : NamespacedName) (d : Deployment)
    (hf : c.faults.head?.join = none)
    (h : c.store.deployments.find? (fun o => hasKey key o.ObjectMeta) = some d) :
    c.GetDeployment key = (.ok d, (c.issue (Call.GetDeployment key)).2) := by
  simp only [Cluster.GetDeployment, Cluster.issue, hf, h]

theorem GetDeployment_missing (c : Cluster) (key : NamespacedName)
    (hf : c.faults.head?.join = none)
    (h : ∀ d ∈ c.store.deployments, hasKey key d.ObjectMeta = false) :
    c.GetDeployment key = (.error (notFoundError key), (c.issue (Call.GetDeployment key)).2) := by
  have hfind : c.store.deployments.find? (fun o => hasKey key o.ObjectMeta) = none := by
    rw [List.find?_eq_none]
    intro d hd
    simp [h d hd]
  simp only [Cluster.GetDeployment, Cluster.issue, hf, hfind]

theorem Create_added (c : Cluster) (obj : Deployment) (hf : c.faults.head?.join = none)
    (h : ∀ d ∈ c.store.deployments,
      hasKey ⟨obj.ObjectMeta.Namespace, obj.ObjectMeta.Name⟩ d.ObjectMeta = false) :
    c.Create obj = (none, { (c.issue (Call.Create obj)).2 with
      store := { c.store with deployments := c.store.deployments ++ [obj] } }) := by
  have hany : c.store.deployments.any
      (fun o => hasKey ⟨obj.ObjectMeta.Namespace, obj.ObjectMeta.Name⟩ o.ObjectMeta) = false := by
    rw [List.any_eq_false]
    intro d hd
    simp [h d hd]
  simp only [Cluster.Create, Cluster.issue, hf, hany]
  rfl

theorem SetControllerReference_fresh (scheme : Scheme) (owner : VerticalPodAutoscalerController)
    (object : Deployment) (gvk : GroupVersionKind) (hgvk : scheme.GVKForObject owner = .ok gvk)
    (hfresh : object.ObjectMeta.OwnerReferences = []) :
    SetControllerReference scheme owner object =
      .ok (object.withOwnerReferences [NewControllerRef owner.ObjectMeta gvk]) := by
  simp [SetControllerReference, hgvk, hfresh, scanOwnerReferences,
    Deployment.withOwnerReferences]

/-! ## Properties of Reconcile -/

/-- C5: when fetching the Controller Resource returns not-found, Reconcile returns the empty
result with a nil error and has no side effects: the store and the recorded events are as
before, and the fetch of the Controller Resource is the only client call issued (no Deployment
get, create or update). -/
theorem Reconcile_resource_not_found (r : Reconciler) (request : Request) (c : Cluster)
    (e : Error) (hget : (c.GetVPA request.NamespacedName).1 = .error e)
    (hnf : IsNotFound (some e) = true) :
    (r.Reconcile request c).1 = (Result.empty, none) ∧
      (r.Reconcile request c).2.store = c.store ∧
      (r.Reconcile request c).2.events = c.events ∧
      (r.Reconcile request c).2.calls = c.calls ++ [Call.GetVPA request.NamespacedName] := by
  have hframe := GetVPA_frame c request.NamespacedName
  have hi := issue_calls c (Call.GetVPA request.NamespacedName)
  rcases hres : c.GetVPA request.NamespacedName with ⟨res, c1⟩
  rw [hres] at hget hframe
  simp only [] at hget hframe
  subst hget
  rw [← hframe] at hi
  simp only [Reconciler.Reconcile, hres, hnf, if_true]
  exact ⟨trivial, hi.2.1, hi.2.2.1, hi.1⟩

/-- A request for a Controller Resource that the store does not hold, through
`Reconcile_resource_not_found`. -/
theorem Reconcile_resource_not_found_witness :
    ((Cluster.ofObjects [] [dep1]).GetVPA req.NamespacedName).1 =
        .error (notFoundError req.NamespacedName) ∧
      IsNotFound (some (notFoundError req.NamespacedName)) = true ∧
      (reconciler1.Reconcile req (Cluster.ofObjects [] [dep1])).1 = (Result.empty, none) ∧
      (reconciler1.Reconcile req (Cluster.ofObjects [] [dep1])).2.store = ⟨[], [dep1]⟩ ∧
      (reconciler1.Reconcile req (Cluster.ofObjects [] [dep1])).2.events = [] :=
  ⟨by decide, by decide,
    (Reconcile_resource_not_found reconciler1 req (Cluster.ofObjects [] [dep1])
      (notFoundError req.NamespacedName) (by decide) (by decide)).1,
    (Reconcile_resource_not_found reconciler1 req (Cluster.ofObjects [] [dep1])
      (notFoundError req.NamespacedName) (by decide) (by decide)).2.1,
    (Reconcile_resource_not_found reconciler1 req (Cluster.ofObjects [] [dep1])
      (notFoundError req.NamespacedName) (by decide) (by decide)).2.2.1⟩

theorem isNotFound_notFoundError (key : NamespacedName) :
    IsNotFound (some (notFoundError key)) = true := by
  simp [IsNotFound, notFoundError]

theorem GetAutoscaler_eq (r : Reconciler) (vpa : VerticalPodAutoscalerController) (c : Cluster) :
    r.GetAutoscaler vpa c = c.GetDeployment (r.RecommenderName vpa) := by
  unfold Reconciler.GetAutoscaler
  simp only []
  rcases c.GetDeployment (r.RecommenderName vpa) with ⟨res, c1⟩
  cases res <;> rfl

/-- C1: when the store holds the Controller Resource named by the request and no Deployment
under RecommenderName(vpa), no failure is scripted for the three client calls, and the scheme
knows the resource's kind (so that the owner reference can be set and the create call
succeeds), Reconcile returns the empty result with no error; the store afterwards is the store
before with exactly one object added, the Deployment AutoscalerDeployment(vpa) carrying one
owner reference, the controller reference to the Controller Resource; exactly one event is
recorded, of type Normal with reason SuccessfulCreate; and the client calls issued are the two
gets and that one create. -/
theorem Reconcile_creates_deployment (r : Reconciler) (request : Request) (c : Cluster)
    (vpa : VerticalPodAutoscalerController) (gvk : GroupVersionKind)
    (hfaults : ∀ f ∈ c.faults.take 3, f = none)
    (hvpa : c.store.vpas.find? (fun o => hasKey request.NamespacedName o.ObjectMeta) = some vpa)
    (hnone : ∀ d ∈ c.store.deployments, hasKey (r.RecommenderName vpa) d.ObjectMeta = false)
    (hgvk : r.scheme.GVKForObject vpa = .ok gvk) :
    (r.Reconcile request c).1 = (Result.empty, none) ∧
      (r.Reconcile request c).2.store.vpas = c.store.vpas ∧
      (r.Reconcile request c).2.store.deployments = c.store.deployments ++
        [(r.AutoscalerDeployment vpa).withOwnerReferences
          [NewControllerRef vpa.ObjectMeta gvk]] ∧
      (NewControllerRef vpa.ObjectMeta gvk).Controller = some true ∧
      (NewControllerRef vpa.ObjectMeta gvk).Name = vpa.ObjectMeta.Name ∧
      (NewControllerRef vpa.ObjectMeta gvk).UID = vpa.ObjectMeta.UID ∧
      (NewControllerRef vpa.ObjectMeta gvk).Kind = gvk.Kind ∧
      (r.Reconcile request c).2.events = c.events ++
        [⟨r.objectReference (RuntimeObject.vpa vpa), "Normal", "SuccessfulCreate",
          "Created VerticalPodAutoscalerController deployment: " ++
            (r.RecommenderName vpa).String, true⟩] ∧
      (r.Reconcile request c).2.calls = c.calls ++
        [Call.GetVPA request.NamespacedName, Call.GetDeployment (r.RecommenderName vpa),
          Call.Create ((r.AutoscalerDeployment vpa).withOwnerReferences
            [NewControllerRef vpa.ObjectMeta gvk])] := by
  obtain ⟨hf0, hfaults1⟩ := faults_step c 2 (Call.GetVPA request.NamespacedName) hfaults
  have hg0 := GetVPA_found c request.NamespacedName vpa hf0 hvpa
  have hi0 := issue_calls c (Call.GetVPA request.NamespacedName)
  generalize (c.issue (Call.GetVPA request.NamespacedName)).2 = c1 at hfaults1 hg0 hi0
  obtain ⟨hf1, hfaults2⟩ :=
    faults_step c1 1 (Call.GetDeployment (r.RecommenderName vpa)) hfaults1
  have hg1 := GetDeployment_missing c1 (r.RecommenderName vpa) hf1 (by rw [hi0.2.1]; exact hnone)
  have hi1 := issue_calls c1 (Call.GetDeployment (r.RecommenderName vpa))
  generalize (c1.issue (Call.GetDeployment (r.RecommenderName vpa))).2 = c2
    at hfaults2 hg1 hi1
  obtain ⟨hf2, -⟩ := faults_step c2 0 (Call.Create ((r.AutoscalerDeployment vpa).withOwnerReferences
    [NewControllerRef vpa.ObjectMeta gvk])) hfaults2
  have hset := SetControllerReference_fresh r.scheme vpa (r.AutoscalerDeployment vpa) gvk hgvk rfl
  have hcr := Create_added c2 ((r.AutoscalerDeployment vpa).withOwnerReferences
    [NewControllerRef vpa.ObjectMeta gvk]) hf2 (by rw [hi1.2.1, hi0.2.1]; exact hnone)
  have hi2 := issue_calls c2 (Call.Create ((r.AutoscalerDeployment vpa).withOwnerReferences
    [NewControllerRef vpa.ObjectMeta gvk]))
  have hrec : r.Reconcile request c = ((Result.empty, none),
      ({ (c2.issue (Call.Create ((r.AutoscalerDeployment vpa).withOwnerReferences
          [NewControllerRef vpa.ObjectMeta gvk]))).2 with
        store := { c2.store with deployments := c2.store.deployments ++
          [(r.AutoscalerDeployment vpa).withOwnerReferences
            [NewControllerRef vpa.ObjectMeta gvk]] } } : Cluster).Eventf
        (r.objectReference (RuntimeObject.vpa vpa)) EventTypeNormal "SuccessfulCreate"
        ("Created VerticalPodAutoscalerController deployment: " ++
          (r.RecommenderName vpa).String)) := by
    simp only [Reconciler.Reconcile, hg0, GetAutoscaler_eq, hg1, errOf, Option.isSome,
      isNotFound_notFoundError, Bool.not_true, Bool.and_false, Bool.false_eq_true, if_false,
      if_true, Reconciler.CreateAutoscaler, hset, hcr]
  rw [hrec]
  refine ⟨rfl, ?_, ?_, rfl, rfl, rfl, rfl, ?_, ?_⟩
  · simp only [Cluster.Eventf, hi1.2.1, hi0.2.1]
  · simp only [Cluster.Eventf, hi1.2.1, hi0.2.1]
  · simp only [Cluster.Eventf, hi2.2.2.1, hi1.2.2.1, hi0.2.2.1]
    rfl
  · simp only [Cluster.Eventf, hi2.1, hi1.1, hi0.1, List.append_assoc]
    rfl

/-- The create path of case 0 of `TestReconcile` (`dep1` is not stored under the recommender's
name), through `Reconcile_creates_deployment`. -/
theorem Reconcile_creates_deployment_witness :
    (∀ f ∈ testCluster.faults.take 3, f = none) ∧
      testCluster.store.vpas.find? (fun o => hasKey req.NamespacedName o.ObjectMeta) =
        some NewVerticalPodAutoscaler ∧
      (∀ d ∈ testCluster.store.deployments,
        hasKey (reconciler1.RecommenderName NewVerticalPodAutoscaler) d.ObjectMeta = false) ∧
      reconciler1.scheme.GVKForObject NewVerticalPodAutoscaler = .ok testGVK ∧
      (reconciler1.Reconcile req testCluster).1 = (Result.empty, none) ∧
      (reconciler1.Reconcile req testCluster).2.store.deployments =
        [dep1, (reconciler1.AutoscalerDeployment NewVerticalPodAutoscaler).withOwnerReferences
          [NewControllerRef NewVerticalPodAutoscaler.ObjectMeta testGVK]] :=
  ⟨by decide, by decide, by decide, rfl,
    (Reconcile_creates_deployment reconciler1 req testCluster NewVerticalPodAutoscaler testGVK
      (by decide) (by decide) (by decide) rfl).1,
    (Reconcile_creates_deployment reconciler1 req testCluster NewVerticalPodAutoscaler testGVK
      (by decide) (by decide) (by decide) rfl).2.2.1⟩

/-! ## Properties of UpdateAutoscaler -/

theorem semanticDeepEqual_value_pointer (a b : PodSpec) :
    SemanticDeepEqual (Dynamic.PodSpec a) (Dynamic.PtrPodSpec b) = false := rfl

/-- C3: when the Managed Deployment is in the store (and its fetch is not failed) and the
release version does not match the configured one, whatever the existing pod spec,
UpdateAutoscaler issues exactly one update after its one get; the object written is the existing
Deployment except that its pod template spec is RecommenderPodSpec(vpa) and that, on the
Deployment metadata and on the pod template metadata, the annotations are the previous ones with
the critical-pod key set to the empty string and the release-version key set to the configured
release version; type, status, replica count, selector, and in both metadata the name,
namespace, labels, owner references and the other annotations are unchanged. -/
theorem UpdateAutoscaler_writes_refreshed (r : Reconciler)
    (vpa : VerticalPodAutoscalerController) (c : Cluster) (existing : Deployment)
    (hkeys : r.deps.CriticalPodAnnotation ≠ r.deps.ReleaseVersionAnnotation)
    (hf : c.faults.head?.join = none)
    (hex : c.store.deployments.find? (fun o => hasKey (r.RecommenderName vpa) o.ObjectMeta) =
      some existing)
    (hver : r.deps.ReleaseVersionMatches vpa.ObjectMeta r.config.ReleaseVersion = false) :
    ∃ written : Deployment,
      (r.UpdateAutoscaler vpa c).2.calls =
        c.calls ++ [Call.GetDeployment (r.RecommenderName vpa), Call.Update written] ∧
      written.TypeMeta = existing.TypeMeta ∧
      written.Status = existing.Status ∧
      written.Spec.Replicas = existing.Spec.Replicas ∧
      written.Spec.Selector = existing.Spec.Selector ∧
      written.Spec.Template.Spec = r.RecommenderPodSpec vpa ∧
      written.ObjectMeta = { existing.ObjectMeta with
        Annotations := some (r.refreshed existing.ObjectMeta.Annotations) } ∧
      written.Spec.Template.ObjectMeta = { existing.Spec.Template.ObjectMeta with
        Annotations := some (r.refreshed existing.Spec.Template.ObjectMeta.Annotations) } ∧
      (∀ previous : Option StringMap,
        (r.refreshed previous).lookup r.deps.CriticalPodAnnotation = some "" ∧
        (r.refreshed previous).lookup r.deps.ReleaseVersionAnnotation =
          some r.config.ReleaseVersion ∧
        ∀ k : String, k ≠ r.deps.CriticalPodAnnotation → k ≠ r.deps.ReleaseVersionAnnotation →
          (r.refreshed previous).lookup k = (previous.getD ∅).lookup k) := by
  have hg := GetDeployment_found c (r.RecommenderName vpa) existing hf hex
  have hi := issue_calls c (Call.GetDeployment (r.RecommenderName vpa))
  generalize (c.issue (Call.GetDeployment (r.RecommenderName vpa))).2 = c1 at hg hi
  refine ⟨{ existing with
      ObjectMeta := r.UpdateAnnotations existing.ObjectMeta
      Spec := { existing.Spec with
        Template := { ObjectMeta := r.UpdateAnnotations existing.Spec.Template.ObjectMeta
                      Spec := r.RecommenderPodSpec vpa } } }, ?_, rfl, rfl, rfl, rfl, rfl,
    UpdateAnnotations_shape r _, UpdateAnnotations_shape r _, fun previous =>
      ⟨lookup_expected_critical _ _ _ _ hkeys, Finmap.lookup_insert _,
        fun k h1 h2 => lookup_expected_other _ _ _ _ _ h1 h2⟩⟩
  simp only [Reconciler.UpdateAutoscaler, GetAutoscaler_eq, hg, hver, Bool.and_false,
    Bool.false_eq_true, if_false]
  have hu := issue_calls c1 (Call.Update { existing with
      ObjectMeta := r.UpdateAnnotations existing.ObjectMeta
      Spec := { existing.Spec with
        Template := { ObjectMeta := r.UpdateAnnotations existing.Spec.Template.ObjectMeta
                      Spec := r.RecommenderPodSpec vpa } } })
  unfold Cluster.Update
  simp only []
  split
  · rename_i err c2 hsplit
    have h2 : c2 = (c1.issue _).2 := (congrArg Prod.snd hsplit).symm
    rw [h2, hu.1, hi.1, List.append_assoc]
    rfl
  · rename_i c2 hsplit
    have h2 : c2 = (c1.issue _).2 := (congrArg Prod.snd hsplit).symm
    split <;> simp only [h2, hu.1, hi.1, List.append_assoc] <;> rfl

/-- An out-of-date Deployment under a Controller Resource without release-version annotation,
through `UpdateAutoscaler_writes_refreshed`. -/
theorem UpdateAutoscaler_writes_refreshed_witness :
    reconciler1.deps.CriticalPodAnnotation ≠ reconciler1.deps.ReleaseVersionAnnotation ∧
      staleCluster.faults.head?.join = none ∧
      staleCluster.store.deployments.find?
          (fun o => hasKey (reconciler1.RecommenderName NewVerticalPodAutoscaler) o.ObjectMeta) =
        some staleDeployment ∧
      reconciler1.deps.ReleaseVersionMatches NewVerticalPodAutoscaler.ObjectMeta
        reconciler1.config.ReleaseVersion = false ∧
      ∃ written : Deployment,
        (reconciler1.UpdateAutoscaler NewVerticalPodAutoscaler staleCluster).2.calls =
          [Call.GetDeployment ⟨"test-namespace", "vpa-recommender-test"⟩, Call.Update written] ∧
        written.Spec.Replicas = some 3 ∧
        written.Spec.Template.Spec = reconciler1.RecommenderPodSpec NewVerticalPodAutoscaler :=
  ⟨by decide, by decide, by decide, by decide,
    match UpdateAutoscaler_writes_refreshed reconciler1 NewVerticalPodAutoscaler staleCluster
      staleDeployment (by decide) (by decide) (by decide) (by decide) with
    | ⟨written, hcalls, _, _, hrep, _, hspec, _⟩ => ⟨written, hcalls, hrep, hspec⟩⟩

/-- C2, the code at an input the claim covers: the store holds the Deployment Reconcile itself
created, so the existing pod template spec equals RecommenderPodSpec(vpa) (also under the
semantic comparison of two pod specs), ReleaseVersionMatches is true, and the Deployment's own
release-version annotation is the configured one; yet UpdateAutoscaler issues a client.Update
call, because it hands DeepEqual a PodSpec and a pointer to a PodSpec. -/
theorem UpdateAutoscaler_updates_converged :
    convergedCluster.store.deployments.find?
          (fun o => hasKey (reconciler1.RecommenderName annotatedVPA) o.ObjectMeta) =
        some convergedDeployment ∧
      convergedDeployment.Spec.Template.Spec = reconciler1.RecommenderPodSpec annotatedVPA ∧
      podSpecDeepEqual convergedDeployment.Spec.Template.Spec
        (reconciler1.RecommenderPodSpec annotatedVPA) = true ∧
      reconciler1.deps.ReleaseVersionMatches annotatedVPA.ObjectMeta
        reconciler1.config.ReleaseVersion = true ∧
      reconciler1.deps.ReleaseVersionMatches convergedDeployment.ObjectMeta
        reconciler1.config.ReleaseVersion = true ∧
      (reconciler1.UpdateAutoscaler annotatedVPA convergedCluster).1 = none ∧
      (reconciler1.UpdateAutoscaler annotatedVPA convergedCluster).2.calls =
        [Call.GetDeployment ⟨"test-namespace", "vpa-recommender-test"⟩,
          Call.Update convergedDeployment] := by
  decide

/-! ## The name filter -/

/-- C4, the code at the input of case 1 of `TestReconcile`: the configured singleton name is
"test2", the request names the Controller Resource "test", which the store holds; NamePredicate
rejects that resource, but Reconcile, called for it, is no no-op: it issues a create, adds a
Deployment to the store and records the event SuccessfulCreate. -/
theorem Reconcile_acts_on_other_name :
    NewVerticalPodAutoscaler.ObjectMeta.Name ≠ reconciler2.config.Name ∧
      reconciler2.NamePredicate NewVerticalPodAutoscaler.ObjectMeta = false ∧
      (testCluster.GetVPA req.NamespacedName).1 = .ok NewVerticalPodAutoscaler ∧
      (reconciler2.Reconcile req testCluster).1 = (Result.empty, none) ∧
      (reconciler2.Reconcile req testCluster).2.calls =
        [Call.GetVPA ⟨"test-namespace", "test"⟩,
          Call.GetDeployment ⟨"test-namespace", "vpa-recommender-test"⟩,
          Call.Create ((reconciler2.AutoscalerDeployment NewVerticalPodAutoscaler).withOwnerReferences
            [NewControllerRef NewVerticalPodAutoscaler.ObjectMeta testGVK])] ∧
      (reconciler2.Reconcile req testCluster).2.store.deployments.length = 2 ∧
      (reconciler2.Reconcile req testCluster).2.events.map (fun ev => ev.Reason) =
        ["SuccessfulCreate"] := by
  decide

/-- Where the name filter is: NamePredicate rejects exactly the objects whose name differs from
the configured singleton name, while Reconcile does not consult that name: with an argument
list that does not depend on it, Reconcile returns the same result and leaves the same store,
calls and events whatever the configured name is. -/
theorem NamePredicate_filters_Reconcile_does_not (r : Reconciler) (name : String)
    (request : Request) (c : Cluster)
    (hargs : ∀ vpa : VerticalPodAutoscalerController,
      r.deps.RecommenderArgs vpa { r.config with Name := name } =
        r.deps.RecommenderArgs vpa r.config) :
    (∀ m : ObjectMeta, r.NamePredicate m = false ↔ m.Name ≠ r.config.Name) ∧
      Reconciler.Reconcile { r with config := { r.config with Name := name } } request c =
        r.Reconcile request c := by
  constructor
  · intro m
    unfold Reconciler.NamePredicate
    by_cases h : m.Name = r.config.Name <;> simp [h]
  · simp only [Reconciler.Reconcile, Reconciler.GetAutoscaler, Reconciler.CreateAutoscaler,
      Reconciler.UpdateAutoscaler, Reconciler.AutoscalerDeployment, Reconciler.RecommenderName,
      Reconciler.UpdateAnnotations, Reconciler.objectReference, Reconciler.RecommenderPodSpec,
      hargs]

/-- The two configurations of `TestReconcile`, which differ in the singleton name only, through
`NamePredicate_filters_Reconcile_does_not`. -/
theorem NamePredicate_filters_Reconcile_does_not_witness :
    (∀ vpa : VerticalPodAutoscalerController,
        reconciler1.deps.RecommenderArgs vpa { reconciler1.config with Name := "test2" } =
          reconciler1.deps.RecommenderArgs vpa reconciler1.config) ∧
      reconciler2.Reconcile req testCluster = reconciler1.Reconcile req testCluster :=
  ⟨fun _ => rfl,
    (NamePredicate_filters_Reconcile_does_not reconciler1 "test2" req testCluster
      (fun _ => rfl)).2⟩

/-! ## Failures of the store -/

theorem Create_frame (c : Cluster) (obj : Deployment) :
    (c.Create obj).2.events = c.events ∧ (c.Create obj).2.calls = c.calls ++ [Call.Create obj] := by
  unfold Cluster.Create Cluster.issue
  cases c.faults.head?.join
  · simp only []
    split <;> exact ⟨rfl, rfl⟩
  · exact ⟨rfl, rfl⟩

theorem Update_frame (c : Cluster) (obj : Deployment) :
    (c.Update obj).2.events = c.events ∧ (c.Update obj).2.calls = c.calls ++ [Call.Update obj] := by
  unfold Cluster.Update Cluster.issue
  cases c.faults.head?.join
  · simp only []
    split <;> exact ⟨rfl, rfl⟩
  · exact ⟨rfl, rfl⟩

theorem CreateAutoscaler_events (r : Reconciler) (vpa : VerticalPodAutoscalerController)
    (c : Cluster) : (r.CreateAutoscaler vpa c).2.events = c.events := by
  unfold Reconciler.CreateAutoscaler
  simp only []
  split
  · rfl
  · exact (Create_frame c _).1

theorem UpdateAutoscaler_events (r : Reconciler) (vpa : VerticalPodAutoscalerController)
    (c : Cluster) : (r.UpdateAutoscaler vpa c).2.events = c.events := by
  have hframe := GetAutoscaler_frame r vpa c
  unfold Reconciler.UpdateAutoscaler
  split
  · rename_i err c1 h
    rw [h] at hframe
    simp only [] at hframe
    rw [hframe]
  · rename_i existing c1 h
    rw [h] at hframe
    simp only [] at hframe
    have hc1 : c1.events = c.events := by rw [hframe]
    simp only []
    split
    · exact hc1
    · rw [(Update_frame c1 _).1, hc1]

/-- C6: a failure of a Deployment store operation made by Reconcile, once the Controller
Resource has been fetched, is returned as it is, with the empty result, and is recorded as
exactly one Warning event and no other event. (1) The get fails with an error `e` other than
not-found: Reconcile returns `e`, the one event has reason FailedGetDeployment, and the two
gets are the only client calls, so no create and no update is issued. (2) The get returns
not-found and the creation fails with `e`: Reconcile returns `e`, the one event has reason
FailedCreate. (3) The get succeeds and the update fails with `e`: Reconcile returns `e`, the
one event has reason FailedUpdate. In (2) and (3) the failure is that of CreateAutoscaler and of
UpdateAutoscaler, which return what client.Create and client.Update return: (4), (5). -/
theorem Reconcile_store_failure (r : Reconciler) (request : Request) (c c1 : Cluster)
    (vpa : VerticalPodAutoscalerController)
    (hvpa : c.GetVPA request.NamespacedName = (.ok vpa, c1)) :
    (∀ (e : Error) (c2 : Cluster), r.GetAutoscaler vpa c1 = (.error e, c2) →
      IsNotFound (some e) = false →
        (r.Reconcile request c).1 = (Result.empty, some e) ∧
        (r.Reconcile request c).2.events = c.events ++
          [⟨r.objectReference (RuntimeObject.vpa vpa), "Warning", "FailedGetDeployment",
            "Error getting vertical-pod-autoscaler deployment: " ++ e.Message, false⟩] ∧
        (r.Reconcile request c).2.calls = c.calls ++
          [Call.GetVPA request.NamespacedName, Call.GetDeployment (r.RecommenderName vpa)] ∧
        (r.Reconcile request c).2.store = c.store) ∧
    (∀ (e0 e : Error) (c2 c3 : Cluster), r.GetAutoscaler vpa c1 = (.error e0, c2) →
      IsNotFound (some e0) = true → r.CreateAutoscaler vpa c2 = (some e, c3) →
        (r.Reconcile request c).1 = (Result.empty, some e) ∧
        (r.Reconcile request c).2.events = c.events ++
          [⟨r.objectReference (RuntimeObject.vpa vpa), "Warning", "FailedCreate",
            "Error creating VerticalPodAutoscalerController deployment: " ++ e.Message,
            false⟩]) ∧
    (∀ (d : Deployment) (e : Error) (c2 c3 : Cluster), r.GetAutoscaler vpa c1 = (.ok d, c2) →
      r.UpdateAutoscaler vpa c2 = (some e, c3) →
        (r.Reconcile request c).1 = (Result.empty, some e) ∧
        (r.Reconcile request c).2.events = c.events ++
          [⟨r.objectReference (RuntimeObject.vpa vpa), "Warning", "FailedUpdate",
            "Error updating vertical-pod-autoscaler deployment: " ++ e.Message, false⟩]) ∧
    (∀ (d : Deployment) (c2 : Cluster),
      SetControllerReference r.scheme vpa (r.AutoscalerDeployment vpa) = .ok d →
        r.CreateAutoscaler vpa c2 = c2.Create d) ∧
    (∀ (existing : Deployment) (c2 c3 : Cluster), r.GetAutoscaler vpa c2 = (.ok existing, c3) →
      ∃ written : Deployment, r.UpdateAutoscaler vpa c2 = c3.Update written) := by
  have hc1 : c1 = (c.issue (Call.GetVPA request.NamespacedName)).2 := by
    rw [← GetVPA_frame, hvpa]
  have hi := issue_calls c (Call.GetVPA request.NamespacedName)
  rw [← hc1] at hi
  refine ⟨fun e c2 hget hnf => ?_, fun e0 e c2 c3 hget hnf hcreate => ?_,
    fun d e c2 c3 hget hupd => ?_, fun d c2 hset => ?_, fun existing c2 c3 hget => ?_⟩
  · have hc2 := GetAutoscaler_frame r vpa c1
    rw [hget] at hc2
    simp only [] at hc2
    simp only [Reconciler.Reconcile, hvpa, hget, errOf, Option.isSome, hnf, Bool.not_false,
      Bool.and_true, if_true, errorText, Cluster.Event, EventTypeWarning]
    refine ⟨trivial, ?_, ?_, ?_⟩
    · rw [hc2, hi.2.2.1]
    · rw [hc2]
      simp only [hi.1, List.append_assoc]
      rfl
    · rw [hc2]
      exact hi.2.1
  · have hc2 := GetAutoscaler_frame r vpa c1
    rw [hget] at hc2
    simp only [] at hc2
    have hc3 := CreateAutoscaler_events r vpa c2
    rw [hcreate] at hc3
    simp only [] at hc3
    simp only [Reconciler.Reconcile, hvpa, hget, errOf, Option.isSome, hnf, Bool.not_true,
      Bool.and_false, Bool.false_eq_true, if_false, if_true, hcreate, errorText, Cluster.Event,
      EventTypeWarning]
    refine ⟨trivial, ?_⟩
    rw [hc3, hc2, hi.2.2.1]
  · have hc2 := GetAutoscaler_frame r vpa c1
    rw [hget] at hc2
    simp only [] at hc2
    have hc3 := UpdateAutoscaler_events r vpa c2
    rw [hupd] at hc3
    simp only [] at hc3
    simp only [Reconciler.Reconcile, hvpa, hget, errOf, Option.isSome, IsNotFound,
      Bool.and_false, Bool.false_and, Bool.false_eq_true, if_false, hupd, errorText,
      Cluster.Event, EventTypeWarning]
    refine ⟨trivial, ?_⟩
    rw [hc3, hc2, hi.2.2.1]
  · simp only [Reconciler.CreateAutoscaler, hset]
  · refine ⟨{ existing with
        ObjectMeta := r.UpdateAnnotations existing.ObjectMeta
        Spec := { existing.Spec with
          Template := { ObjectMeta := r.UpdateAnnotations existing.Spec.Template.ObjectMeta
                        Spec := r.RecommenderPodSpec vpa } } }, ?_⟩
    simp only [Reconciler.UpdateAutoscaler, hget, semanticDeepEqual_value_pointer,
      Bool.false_and, Bool.false_eq_true, if_false]

/-- A failing get, a failing create and a failing update, each through
`Reconcile_store_failure`. -/
theorem Reconcile_store_failure_witness :
    ((getFailsCluster.GetVPA req.NamespacedName).1 = .ok NewVerticalPodAutoscaler ∧
      (reconciler1.GetAutoscaler NewVerticalPodAutoscaler
        (getFailsCluster.GetVPA req.NamespacedName).2).1 = .error serverError ∧
      IsNotFound (some serverError) = false ∧
      (reconciler1.Reconcile req getFailsCluster).1 = (Result.empty, some serverError) ∧
      (reconciler1.Reconcile req getFailsCluster).2.calls =
        [Call.GetVPA req.NamespacedName,
          Call.GetDeployment (reconciler1.RecommenderName NewVerticalPodAutoscaler)]) ∧
    ((reconciler1.CreateAutoscaler NewVerticalPodAutoscaler
        (reconciler1.GetAutoscaler NewVerticalPodAutoscaler
          (createFailsCluster.GetVPA req.NamespacedName).2).2).1 = some serverError ∧
      (reconciler1.Reconcile req createFailsCluster).1 = (Result.empty, some serverError)) ∧
    ((reconciler1.UpdateAutoscaler NewVerticalPodAutoscaler
        (reconciler1.GetAutoscaler NewVerticalPodAutoscaler
          (updateFailsCluster.GetVPA req.NamespacedName).2).2).1 = some serverError ∧
      (reconciler1.Reconcile req updateFailsCluster).1 = (Result.empty, some serverError)) :=
  ⟨⟨by decide, by decide, by decide,
      ((Reconcile_store_failure reconciler1 req getFailsCluster
        (getFailsCluster.GetVPA req.NamespacedName).2 NewVerticalPodAutoscaler rfl).1
        serverError (reconciler1.GetAutoscaler NewVerticalPodAutoscaler
          (getFailsCluster.GetVPA req.NamespacedName).2).2 rfl rfl).1,
      ((Reconcile_store_failure reconciler1 req getFailsCluster
        (getFailsCluster.GetVPA req.NamespacedName).2 NewVerticalPodAutoscaler rfl).1
        serverError (reconciler1.GetAutoscaler NewVerticalPodAutoscaler
          (getFailsCluster.GetVPA req.NamespacedName).2).2 rfl rfl).2.2.1⟩,
    ⟨by decide,
      ((Reconcile_store_failure reconciler1 req createFailsCluster
        (createFailsCluster.GetVPA req.NamespacedName).2 NewVerticalPodAutoscaler rfl).2.1
        (notFoundError (reconciler1.RecommenderName NewVerticalPodAutoscaler)) serverError
        (reconciler1.GetAutoscaler NewVerticalPodAutoscaler
          (createFailsCluster.GetVPA req.NamespacedName).2).2
        (reconciler1.CreateAutoscaler NewVerticalPodAutoscaler
          (reconciler1.GetAutoscaler NewVerticalPodAutoscaler
            (createFailsCluster.GetVPA req.NamespacedName).2).2).2 rfl rfl rfl).1⟩,
    ⟨by decide,
      ((Reconcile_store_failure reconciler1 req updateFailsCluster
        (updateFailsCluster.GetVPA req.NamespacedName).2 NewVerticalPodAutoscaler rfl).2.2.1
        staleDeployment serverError
        (reconciler1.GetAutoscaler NewVerticalPodAutoscaler
          (updateFailsCluster.GetVPA req.NamespacedName).2).2
        (reconciler1.UpdateAutoscaler NewVerticalPodAutoscaler
          (reconciler1.GetAutoscaler NewVerticalPodAutoscaler
            (updateFailsCluster.GetVPA req.NamespacedName).2).2).2 rfl rfl).1⟩⟩

/-! ## The comparison in UpdateAutoscaler -/

/-- C12: UpdateAutoscaler hands DeepEqual the existing pod spec as a PodSpec value and the
expected one as a pointer to a PodSpec; DeepEqual is false on operands of different dynamic
types, whatever the two pod specs are, so the early return is never taken: whenever the fetch
of the Deployment succeeds, UpdateAutoscaler returns what client.Update returns, and the client
calls it issues are its one get followed by exactly one update, whether or not the pod spec and
the release version already match. -/
theorem UpdateAutoscaler_always_updates (r : Reconciler)
    (vpa : VerticalPodAutoscalerController) (c c1 : Cluster) (existing : Deployment)
    (hget : r.GetAutoscaler vpa c = (.ok existing, c1)) :
    (∀ a b : PodSpec, SemanticDeepEqual (Dynamic.PodSpec a) (Dynamic.PtrPodSpec b) = false) ∧
      r.UpdateAutoscaler vpa c = c1.Update (r.updated vpa existing) ∧
      (r.UpdateAutoscaler vpa c).2.calls = c.calls ++
        [Call.GetDeployment (r.RecommenderName vpa), Call.Update (r.updated vpa existing)] := by
  have hupd : r.UpdateAutoscaler vpa c = c1.Update (r.updated vpa existing) := by
    simp only [Reconciler.UpdateAutoscaler, hget, semanticDeepEqual_value_pointer,
      Bool.false_and, Bool.false_eq_true, if_false, Reconciler.updated]
  have hc1 := GetAutoscaler_frame r vpa c
  rw [hget] at hc1
  simp only [] at hc1
  refine ⟨fun a b => rfl, hupd, ?_⟩
  rw [hupd, (Update_frame c1 _).2, hc1, List.append_assoc]
  rfl

/-- A store in which pod spec and release version already match, through
`UpdateAutoscaler_always_updates`. -/
theorem UpdateAutoscaler_always_updates_witness :
    reconciler1.GetAutoscaler annotatedVPA convergedCluster =
        (.ok convergedDeployment, (reconciler1.GetAutoscaler annotatedVPA convergedCluster).2) ∧
      convergedDeployment.Spec.Template.Spec = reconciler1.RecommenderPodSpec annotatedVPA ∧
      reconciler1.deps.ReleaseVersionMatches annotatedVPA.ObjectMeta
        reconciler1.config.ReleaseVersion = true ∧
      (reconciler1.UpdateAutoscaler annotatedVPA convergedCluster).2.calls =
        [Call.GetDeployment (reconciler1.RecommenderName annotatedVPA),
          Call.Update (reconciler1.updated annotatedVPA convergedDeployment)] :=
  ⟨rfl, by decide, by decide,
    (UpdateAutoscaler_always_updates reconciler1 annotatedVPA convergedCluster
      (reconciler1.GetAutoscaler annotatedVPA convergedCluster).2 convergedDeployment rfl).2.2⟩

/-! ## Reconcile on a store whose calls all succeed -/

theorem faults_all_step (c : Cluster) (call : Call) (h : ∀ f ∈ c.faults, f = none) :
    c.faults.head?.join = none ∧ ∀ f ∈ (c.issue call).2.faults, f = none := by
  cases hf : c.faults with
  | nil => simp [Cluster.issue, hf]
  | cons a rest =>
    rw [hf] at h
    have ha : a = none := h a (by simp)
    refine ⟨by simp [ha], fun f hfm => h f ?_⟩
    have : f ∈ rest := by simpa [Cluster.issue, hf] using hfm
    simp [this]

theorem hasKey_iff (key : NamespacedName) (m : ObjectMeta) :
    hasKey key m = true ↔ (⟨m.Namespace, m.Name⟩ : NamespacedName) = key := by
  cases key
  simp [hasKey]

theorem GetVPA_missing (c : Cluster) (key : NamespacedName) (hf : c.faults.head?.join = none)
    (h : c.store.vpas.find? (fun o => hasKey key o.ObjectMeta) = none) :
    c.GetVPA key = (.error (notFoundError key), (c.issue (Call.GetVPA key)).2) := by
  simp only [Cluster.GetVPA, Cluster.issue, hf, h]

theorem Update_replaced (c : Cluster) (obj : Deployment) (hf : c.faults.head?.join = none)
    (h : c.store.deployments.any
      (fun o => hasKey ⟨obj.ObjectMeta.Namespace, obj.ObjectMeta.Name⟩ o.ObjectMeta) = true) :
    (c.Update obj).2.store.vpas = c.store.vpas ∧
      (c.Update obj).2.store.deployments = c.store.deployments.map
        (fun o => if hasKey ⟨obj.ObjectMeta.Namespace, obj.ObjectMeta.Name⟩ o.ObjectMeta
          then obj else o) ∧
      (c.Update obj).2.faults = (c.issue (Call.Update obj)).2.faults := by
  simp only [Cluster.Update, Cluster.issue, hf, h, if_true, and_self]

theorem SetControllerReference_ok (scheme : Scheme) (owner : VerticalPodAutoscalerController)
    (object d : Deployment) (h : SetControllerReference scheme owner object = .ok d) :
    ∃ refs : List OwnerReference, d = object.withOwnerReferences refs := by
  unfold SetControllerReference at h
  split at h
  · cases h
  · simp only [] at h
    split at h
    · cases h
    · injection h with h
      exact ⟨_, h.symm⟩

theorem updated_key (r : Reconciler) (vpa : VerticalPodAutoscalerController) (e : Deployment)
    (key : NamespacedName) :
    hasKey key (r.updated vpa e).ObjectMeta = hasKey key e.ObjectMeta := by
  simp only [Reconciler.updated, UpdateAnnotations_shape, hasKey]

theorem UpdateAnnotations_idem (r : Reconciler) (obj : ObjectMeta) :
    r.UpdateAnnotations (r.UpdateAnnotations obj) = r.UpdateAnnotations obj := by
  rw [UpdateAnnotations_shape r obj, UpdateAnnotations_shape]
  simp only [Reconciler.refreshed, Option.getD_some, insert_expected_twice]

theorem updated_idem (r : Reconciler) (vpa : VerticalPodAutoscalerController) (e : Deployment) :
    r.updated vpa (r.updated vpa e) = r.updated vpa e := by
  simp only [Reconciler.updated, UpdateAnnotations_idem]

theorem updated_created (r : Reconciler) (vpa : VerticalPodAutoscalerController)
    (refs : List OwnerReference) :
    r.updated vpa ((r.AutoscalerDeployment vpa).withOwnerReferences refs) =
      (r.AutoscalerDeployment vpa).withOwnerReferences refs := by
  have h : r.refreshed (some r.expectedAnnotations) = r.expectedAnnotations := by
    simp only [Reconciler.refreshed, Reconciler.expectedAnnotations, Option.getD_some,
      insert_expected_twice]
  simp only [Reconciler.updated, UpdateAnnotations_shape, Deployment.withOwnerReferences,
    Reconciler.AutoscalerDeployment]
  rw [← Reconciler.expectedAnnotations, h]

theorem Reconcile_create_path (r : Reconciler) (request : Request) (c c1 c2 : Cluster)
    (vpa : VerticalPodAutoscalerController) (e0 : Error)
    (hvpa : c.GetVPA request.NamespacedName = (.ok vpa, c1))
    (hget : r.GetAutoscaler vpa c1 = (.error e0, c2)) (hnf : IsNotFound (some e0) = true) :
    (r.Reconcile request c).2.store = (r.CreateAutoscaler vpa c2).2.store ∧
      (r.Reconcile request c).2.faults = (r.CreateAutoscaler vpa c2).2.faults := by
  rcases hres : r.CreateAutoscaler vpa c2 with ⟨oerr, c3⟩
  cases oerr <;>
    simp only [Reconciler.Reconcile, hvpa, hget, errOf, Option.isSome, hnf, Bool.not_true,
      Bool.and_false, Bool.false_eq_true, if_false, if_true, hres, Cluster.Event,
      Cluster.Eventf, and_self]

theorem Reconcile_update_path (r : Reconciler) (request : Request) (c c1 c2 : Cluster)
    (vpa : VerticalPodAutoscalerController) (d : Deployment)
    (hvpa : c.GetVPA request.NamespacedName = (.ok vpa, c1))
    (hget : r.GetAutoscaler vpa c1 = (.ok d, c2)) :
    (r.Reconcile request c).2.store = (r.UpdateAutoscaler vpa c2).2.store ∧
      (r.Reconcile request c).2.faults = (r.UpdateAutoscaler vpa c2).2.faults := by
  rcases hres : r.UpdateAutoscaler vpa c2 with ⟨oerr, c3⟩
  cases oerr <;>
    simp only [Reconciler.Reconcile, hvpa, hget, errOf, Option.isSome, IsNotFound,
      Bool.and_false, Bool.false_and, Bool.false_eq_true, if_false, hres, Cluster.Event,
      Cluster.Eventf, and_self]

theorem Reconcile_store_of_no_fault (r : Reconciler) (request : Request) (c : Cluster)
    (h : ∀ f ∈ c.faults, f = none) :
    (r.Reconcile request c).2.store = r.storeAfter request c.store ∧
      ∀ f ∈ (r.Reconcile request c).2.faults, f = none := by
  obtain ⟨hf0, h1⟩ := faults_all_step c (Call.GetVPA request.NamespacedName) h
  have hi0 := issue_calls c (Call.GetVPA request.NamespacedName)
  cases hv : c.store.vpas.find? (fun o => hasKey request.NamespacedName o.ObjectMeta) with
  | none =>
    have hg0 := GetVPA_missing c _ hf0 hv
    simp only [Reconciler.Reconcile, hg0, isNotFound_notFoundError, if_true,
      Reconciler.storeAfter, hv]
    exact ⟨hi0.2.1, h1⟩
  | some vpa =>
    have hg0 := GetVPA_found c _ vpa hf0 hv
    generalize (c.issue (Call.GetVPA request.NamespacedName)).2 = c1 at h1 hg0 hi0
    obtain ⟨hf1, h2⟩ := faults_all_step c1 (Call.GetDeployment (r.RecommenderName vpa)) h1
    have hi1 := issue_calls c1 (Call.GetDeployment (r.RecommenderName vpa))
    cases hd : c.store.deployments.find?
        (fun o => hasKey (r.RecommenderName vpa) o.ObjectMeta) with
    | none =>
      have hall : ∀ d ∈ c.store.deployments,
          hasKey (r.RecommenderName vpa) d.ObjectMeta = false := by
        intro d hmem
        have := List.find?_eq_none.1 hd d hmem
        simpa using this
      have hg1 := GetDeployment_missing c1 (r.RecommenderName vpa) hf1
        (by rw [hi0.2.1]; exact hall)
      generalize (c1.issue (Call.GetDeployment (r.RecommenderName vpa))).2 = c2 at h2 hg1 hi1
      rw [← GetAutoscaler_eq] at hg1
      obtain ⟨hs1, hs2⟩ := Reconcile_create_path r request c c1 c2 vpa _ hg0 hg1
        (isNotFound_notFoundError _)
      rw [hs1, hs2]
      cases hs : SetControllerReference r.scheme vpa (r.AutoscalerDeployment vpa) with
      | error e =>
        simp only [Reconciler.CreateAutoscaler, hs, Reconciler.storeAfter, hv, hd]
        exact ⟨by rw [hi1.2.1, hi0.2.1], h2⟩
      | ok d =>
        obtain ⟨refs, hdeq⟩ := SetControllerReference_ok _ _ _ _ hs
        have hkey : (⟨d.ObjectMeta.Namespace, d.ObjectMeta.Name⟩ : NamespacedName) =
            r.RecommenderName vpa := by rw [hdeq]; rfl
        obtain ⟨hf2, h3⟩ := faults_all_step c2 (Call.Create d) h2
        have hcr := Create_added c2 d hf2 (by rw [hkey, hi1.2.1, hi0.2.1]; exact hall)
        simp only [Reconciler.CreateAutoscaler, hs, hcr, Reconciler.storeAfter, hv, hd]
        exact ⟨by rw [hi1.2.1, hi0.2.1], h3⟩
    | some existing =>
      have hg1 := GetDeployment_found c1 (r.RecommenderName vpa) existing hf1
        (by rw [hi0.2.1]; exact hd)
      generalize (c1.issue (Call.GetDeployment (r.RecommenderName vpa))).2 = c2 at h2 hg1 hi1
      rw [← GetAutoscaler_eq] at hg1
      obtain ⟨hs1, hs2⟩ := Reconcile_update_path r request c c1 c2 vpa _ hg0 hg1
      rw [hs1, hs2]
      obtain ⟨hf2, h3⟩ := faults_all_step c2 (Call.GetDeployment (r.RecommenderName vpa)) h2
      have hi2 := issue_calls c2 (Call.GetDeployment (r.RecommenderName vpa))
      have hg2 := GetDeployment_found c2 (r.RecommenderName vpa) existing hf2
        (by rw [hi1.2.1, hi0.2.1]; exact hd)
      generalize (c2.issue (Call.GetDeployment (r.RecommenderName vpa))).2 = c3 at h3 hg2 hi2
      obtain ⟨hf3, h4⟩ := faults_all_step c3 (Call.Update (r.updated vpa existing)) h3
      have hk : hasKey (r.RecommenderName vpa) existing.ObjectMeta = true :=
        @List.find?_some Deployment
          (fun o => hasKey (r.RecommenderName vpa) o.ObjectMeta) _ _ hd
      have hkey : (⟨(r.updated vpa existing).ObjectMeta.Namespace,
          (r.updated vpa existing).ObjectMeta.Name⟩ : NamespacedName) = r.RecommenderName vpa := by
        rw [← hasKey_iff, updated_key]
        exact hk
      have hstore : c3.store = c.store := by rw [hi2.2.1, hi1.2.1, hi0.2.1]
      have hany : c3.store.deployments.any (fun o => hasKey
          ⟨(r.updated vpa existing).ObjectMeta.Namespace,
            (r.updated vpa existing).ObjectMeta.Name⟩ o.ObjectMeta) = true := by
        rw [hkey, hstore, List.any_eq_true]
        exact ⟨existing, List.mem_of_find?_eq_some hd, hk⟩
      obtain ⟨hu1, hu2, hu3⟩ := Update_replaced c3 _ hf3 hany
      have hU : r.UpdateAutoscaler vpa c2 = c3.Update (r.updated vpa existing) := by
        simp only [Reconciler.UpdateAutoscaler, GetAutoscaler_eq, hg2,
          semanticDeepEqual_value_pointer, Bool.false_and, Bool.false_eq_true, if_false,
          Reconciler.updated]
      rw [hU, hu3]
      refine ⟨?_, h4⟩
      have hsplit : ∀ s1 s2 : Store, s1.vpas = s2.vpas → s1.deployments = s2.deployments →
          s1 = s2 := by
        intro s1 s2 ha hb
        cases s1
        cases s2
        simp only [] at ha hb
        rw [ha, hb]
      apply hsplit
      · rw [hu1, hstore]
        simp only [Reconciler.storeAfter, hv, hd]
      · rw [hu2, hkey, hstore]
        simp only [Reconciler.storeAfter, hv, hd]

theorem find_map_replace {α : Type} (p : α → Bool) (w : α) (hw : p w = true) (l : List α)
    (x : α) (h : l.find? p = some x) :
    (l.map (fun o => if p o = true then w else o)).find? p = some w := by
  induction l with
  | nil => simp at h
  | cons a t ih =>
    by_cases ha : p a = true
    · simp [List.find?, ha, hw]
    · have ha2 : p a = false := by simpa using ha
      rw [List.find?_cons, ha2] at h
      simp only [List.map_cons, ha2, Bool.false_eq_true, if_false, List.find?_cons]
      exact ih h

theorem map_replace_idem {α : Type} (p : α → Bool) (w : α) (hw : p w = true) (l : List α) :
    (l.map (fun o => if p o = true then w else o)).map (fun o => if p o = true then w else o) =
      l.map (fun o => if p o = true then w else o) := by
  rw [List.map_map]
  apply List.map_congr_left
  intro a _
  by_cases ha : p a = true
  · simp [ha, hw]
  · simp [ha]

theorem map_replace_of_none {α : Type} (p : α → Bool) (w : α) (l : List α)
    (h : ∀ a ∈ l, p a = false) : l.map (fun o => if p o = true then w else o) = l := by
  induction l with
  | nil => rfl
  | cons a t ih =>
    have ha := h a (by simp)
    simp only [List.map_cons, ha, Bool.false_eq_true, if_false]
    rw [ih (fun b hb => h b (by simp [hb]))]

theorem storeAfter_idem (r : Reconciler) (request : Request) (s : Store) :
    r.storeAfter request (r.storeAfter request s) = r.storeAfter request s := by
  cases hv : s.vpas.find? (fun o => hasKey request.NamespacedName o.ObjectMeta) with
  | none =>
    have h1 : r.storeAfter request s = s := by simp only [Reconciler.storeAfter, hv]
    rw [h1, h1]
  | some vpa =>
    cases hd : s.deployments.find?
        (fun o => hasKey (r.RecommenderName vpa) o.ObjectMeta) with
    | none =>
      cases hs : SetControllerReference r.scheme vpa (r.AutoscalerDeployment vpa) with
      | error e =>
        have h1 : r.storeAfter request s = s := by simp only [Reconciler.storeAfter, hv, hd, hs]
        rw [h1, h1]
      | ok d =>
        obtain ⟨refs, hdeq⟩ := SetControllerReference_ok _ _ _ _ hs
        have hkd : hasKey (r.RecommenderName vpa) d.ObjectMeta = true := by
          rw [hasKey_iff, hdeq]
          rfl
        have hall : ∀ a ∈ s.deployments,
            hasKey (r.RecommenderName vpa) a.ObjectMeta = false := by
          intro a hmem
          have := List.find?_eq_none.1 hd a hmem
          simpa using this
        have h1 : r.storeAfter request s = { s with deployments := s.deployments ++ [d] } := by
          simp only [Reconciler.storeAfter, hv, hd, hs]
        have hfind : (s.deployments ++ [d]).find?
            (fun o => hasKey (r.RecommenderName vpa) o.ObjectMeta) = some d := by
          rw [List.find?_append, hd]
          simp [List.find?, hkd]
        have hfix : r.updated vpa d = d := by
          rw [hdeq]
          exact updated_created r vpa refs
        rw [h1]
        simp only [Reconciler.storeAfter, hv, hfind, hfix, List.map_append, List.map_cons,
          List.map_nil, hkd, if_true]
        rw [map_replace_of_none (fun o => hasKey (r.RecommenderName vpa) o.ObjectMeta) d
          s.deployments hall]
    | some existing =>
      have hk : hasKey (r.RecommenderName vpa) existing.ObjectMeta = true :=
        @List.find?_some Deployment
          (fun o => hasKey (r.RecommenderName vpa) o.ObjectMeta) _ _ hd
      have hw : hasKey (r.RecommenderName vpa) (r.updated vpa existing).ObjectMeta = true := by
        rw [updated_key]
        exact hk
      have h1 : r.storeAfter request s = Store.mk s.vpas (s.deployments.map
          (fun o => if hasKey (r.RecommenderName vpa) o.ObjectMeta = true
            then r.updated vpa existing else o)) := by
        simp only [Reconciler.storeAfter, hv, hd]
      have hfind := find_map_replace (fun o => hasKey (r.RecommenderName vpa) o.ObjectMeta)
        (r.updated vpa existing) hw s.deployments existing hd
      rw [h1]
      simp only [Reconciler.storeAfter, hv, hfind, updated_idem]
      rw [map_replace_idem (fun o => hasKey (r.RecommenderName vpa) o.ObjectMeta)
        (r.updated vpa existing) hw]

theorem storeAfter_count (r : Reconciler) (request : Request) (s : Store)
    (key : NamespacedName) :
    (r.storeAfter request s).countDeployments key ≤ max 1 (s.countDeployments key) := by
  cases hv : s.vpas.find? (fun o => hasKey request.NamespacedName o.ObjectMeta) with
  | none =>
    have h1 : r.storeAfter request s = s := by simp only [Reconciler.storeAfter, hv]
    rw [h1]
    exact le_max_right _ _
  | some vpa =>
    cases hd : s.deployments.find?
        (fun o => hasKey (r.RecommenderName vpa) o.ObjectMeta) with
    | none =>
      cases hs : SetControllerReference r.scheme vpa (r.AutoscalerDeployment vpa) with
      | error e =>
        have h1 : r.storeAfter request s = s := by simp only [Reconciler.storeAfter, hv, hd, hs]
        rw [h1]
        exact le_max_right _ _
      | ok d =>
        obtain ⟨refs, hdeq⟩ := SetControllerReference_ok _ _ _ _ hs
        have hkd : (⟨d.ObjectMeta.Namespace, d.ObjectMeta.Name⟩ : NamespacedName) =
            r.RecommenderName vpa := by rw [hdeq]; rfl
        have hall : ∀ a ∈ s.deployments,
            hasKey (r.RecommenderName vpa) a.ObjectMeta = false := by
          intro a hmem
          have := List.find?_eq_none.1 hd a hmem
          simpa using this
        have h1 : r.storeAfter request s = Store.mk s.vpas (s.deployments ++ [d]) := by
          simp only [Reconciler.storeAfter, hv, hd, hs]
        rw [h1]
        simp only [Store.countDeployments, List.filter_append, List.length_append]
        by_cases hkey : hasKey key d.ObjectMeta = true
        · have hk2 : r.RecommenderName vpa = key := by
            rw [← hkd]
            exact (hasKey_iff key d.ObjectMeta).1 hkey
          have hzero : s.deployments.filter (fun o => hasKey key o.ObjectMeta) = [] := by
            rw [List.filter_eq_nil_iff]
            intro a hmem
            rw [← hk2, hall a hmem]
            simp
          rw [hzero]
          simp [List.filter, hkey]
        · have hkey2 : hasKey key d.ObjectMeta = false := by simpa using hkey
          simp [List.filter, hkey2]
    | some existing =>
      have hk : hasKey (r.RecommenderName vpa) existing.ObjectMeta = true :=
        @List.find?_some Deployment
          (fun o => hasKey (r.RecommenderName vpa) o.ObjectMeta) _ _ hd
      have h1 : r.storeAfter request s = Store.mk s.vpas (s.deployments.map
          (fun o => if hasKey (r.RecommenderName vpa) o.ObjectMeta = true
            then r.updated vpa existing else o)) := by
        simp only [Reconciler.storeAfter, hv, hd]
      have hsame : ∀ a : Deployment,
          hasKey key (if hasKey (r.RecommenderName vpa) a.ObjectMeta = true
            then r.updated vpa existing else a).ObjectMeta = hasKey key a.ObjectMeta := by
        intro a
        by_cases ha : hasKey (r.RecommenderName vpa) a.ObjectMeta = true
        · rw [if_pos ha, updated_key]
          have e1 := (hasKey_iff _ _).1 hk
          have e2 := (hasKey_iff _ _).1 ha
          rw [Bool.eq_iff_iff, hasKey_iff, hasKey_iff, e1, e2]
        · rw [if_neg ha]
      rw [h1]
      simp only [Store.countDeployments, List.filter_map, List.length_map]
      have hfun : ((fun o : Deployment => hasKey key o.ObjectMeta) ∘
          (fun o => if hasKey (r.RecommenderName vpa) o.ObjectMeta = true
            then r.updated vpa existing else o)) = (fun o => hasKey key o.ObjectMeta) := by
        funext a
        exact hsame a
      rw [hfun]
      exact le_max_right _ _

/-- C11: on a cluster whose script fails no client call, a second run of Reconcile for the same
request leaves the store exactly as the first run left it (the store model keeps the objects as
written, without server-managed metadata). In particular the second run adds no Deployment;
and a run never brings the number of Deployments stored under one namespace and name above one:
where the store holds at most one Deployment under a key before, it holds at most one under it
after one run and after two. -/
theorem Reconcile_idempotent (r : Reconciler) (request : Request) (c : Cluster)
    (hfaults : ∀ f ∈ c.faults, f = none) :
    (r.Reconcile request (r.Reconcile request c).2).2.store = (r.Reconcile request c).2.store ∧
      (r.Reconcile request (r.Reconcile request c).2).2.store.deployments.length =
        (r.Reconcile request c).2.store.deployments.length ∧
      (∀ key : NamespacedName, c.store.countDeployments key ≤ 1 →
        (r.Reconcile request c).2.store.countDeployments key ≤ 1 ∧
        (r.Reconcile request (r.Reconcile request c).2).2.store.countDeployments key ≤ 1) := by
  obtain ⟨h1, hf1⟩ := Reconcile_store_of_no_fault r request c hfaults
  obtain ⟨h2, -⟩ := Reconcile_store_of_no_fault r request (r.Reconcile request c).2 hf1
  have hsame : (r.Reconcile request (r.Reconcile request c).2).2.store =
      (r.Reconcile request c).2.store := by
    rw [h2, h1, storeAfter_idem]
  refine ⟨hsame, by rw [hsame], fun key hkey => ?_⟩
  have hcount : (r.Reconcile request c).2.store.countDeployments key ≤ 1 := by
    rw [h1]
    exact le_trans (storeAfter_count r request c.store key) (max_le (le_refl 1) hkey)
  exact ⟨hcount, by rw [hsame]; exact hcount⟩

/-- Two runs on the store of the tests, through `Reconcile_idempotent`: the first run creates
the recommender's Deployment next to `dep1`, the second leaves both as they are. -/
theorem Reconcile_idempotent_witness :
    (∀ f ∈ testCluster.faults, f = none) ∧
      (reconciler1.Reconcile req testCluster).2.store.deployments.length = 2 ∧
      (reconciler1.Reconcile req (reconciler1.Reconcile req testCluster).2).2.store =
        (reconciler1.Reconcile req testCluster).2.store :=
  ⟨by decide, by decide, (Reconcile_idempotent reconciler1 req testCluster (by decide)).1⟩

end VPAOperator
